import Mathlib

/-!
# PAModel: likelihood and log-posterior-ratio engine

A shallow embedding of `src/src/PAModel.cpp`. Values of C++ type `double` are
embedded as real numbers, values of type `unsigned` as natural numbers, and the
`int` accumulator of `calculateY` as an integer reduced into the 32-bit signed
range after every addition. Classes that PAModel.cpp only calls into
(PAParameter, Parameter, Genome, Gene, SequenceSummary) are embedded as records
of the member functions that PAModel.cpp uses; their bodies are arbitrary.

The real-number embedding describes runs in which every `double` is finite:
`Real.log` and `lgamma` below agree with `std::log` and `std::lgamma` on positive
arguments, and the sums are exact, so rounding and the order of a parallel
reduction are not represented. Output parameters (`double*`, `std::vector<double>&`)
are embedded as the list of slots that the function writes.
-/

namespace AnaCoDa

/-! ## Library functions and collaborators -/

/-- The C library function `std::lgamma`: the natural logarithm of the absolute
value of the Gamma function. -/
noncomputable def lgamma (x : ℝ) : ℝ := Real.log |Real.Gamma x|

/-- Static members of class `Parameter` that PAModel.cpp calls. The arguments
are `(x, mean, sd, log)`. -/
structure Parameter where
  densityLogNorm : ℝ → ℝ → ℝ → Bool → ℝ
  densityNorm : ℝ → ℝ → ℝ → Bool → ℝ

/-- Static members of class `SequenceSummary` that PAModel.cpp calls. -/
structure SequenceSummary where
  codonToIndex : String → Nat
  codonArray : Nat → String

/-- The member `geneData` of a gene: `getRFPValue index column` is the observed
footprint count and `getCodonCountForCodon index` the codon count.
`getCodonCountForCodonStr codon` is the C++ overload of `getCodonCountForCodon`
that takes the codon as a string. -/
structure GeneData where
  getRFPValue : Nat → Nat → Nat
  getCodonCountForCodon : Nat → Nat
  getCodonCountForCodonStr : String → Nat
deriving Inhabited

/-- A gene, as far as PAModel.cpp reads it. -/
structure Gene where
  geneData : GeneData
  getTotalRFPCount : Nat
deriving Inhabited

/-- A genome: an ordered collection of genes. -/
structure Genome where
  genes : List Gene

/-- Number of genes of the genome. -/
def Genome.getGenomeSize (genome : Genome) : Nat := genome.genes.length

/-- The gene at position `i`. -/
def Genome.getGene (genome : Genome) (i : Nat) : Gene := genome.genes.getD i default

/-- The vector of all genes. -/
def Genome.getGenes (genome : Genome) : List Gene := genome.genes

/-- The parameter object behind the pointer `parameter`: the member functions
of PAParameter that PAModel.cpp calls. A `Bool` argument is the C++ flag
`proposed` (`false` reads the current value, `true` the proposed one).
`alp` and `lmPri` are the constants `PAParameter::alp` and `PAParameter::lmPri`. -/
structure PAParameter where
  alp : Nat
  lmPri : Nat
  getMutationCategory : Nat → Nat
  getSelectionCategory : Nat → Nat
  getSynthesisRateCategory : Nat → Nat
  getSynthesisRate : Nat → Nat → Bool → ℝ
  getParameterForCategory : Nat → Nat → String → Bool → ℝ
  getStdDevSynthesisRate : Nat → Bool → ℝ
  getMixtureAssignment : Nat → Nat
  getNumSynthesisRateCategories : Nat
  getGroupListSize : Nat
  getGrouping : Nat → String
  calculateExpectedZ : Genome → ℝ

/-- The data members of a PAModel object. `CSHyperParameters` is the handoff
buffer written by `calculateLogLikelihoodRatioPerGene`, as a map from slot
number to content. -/
structure PAModel where
  parameter : PAParameter
  RFPCountColumn : Nat
  CSHyperParameters : Nat → ℝ
  ExpectedZ : ℝ
  Y : ℝ

namespace PAModel

/-! ## Forwarding member functions -/

/-- Source: `PAModel::getMutationCategory`. -/
def getMutationCategory (m : PAModel) (mixture : Nat) : Nat :=
  m.parameter.getMutationCategory mixture

/-- Source: `PAModel::getSelectionCategory`. -/
def getSelectionCategory (m : PAModel) (mixture : Nat) : Nat :=
  m.parameter.getSelectionCategory mixture

/-- Source: `PAModel::getSynthesisRateCategory`. -/
def getSynthesisRateCategory (m : PAModel) (mixture : Nat) : Nat :=
  m.parameter.getSynthesisRateCategory mixture

/-- Source: `PAModel::getGroupListSize`. -/
def getGroupListSize (m : PAModel) : Nat := m.parameter.getGroupListSize

/-- Source: `PAModel::getGrouping`. -/
def getGrouping (m : PAModel) (index : Nat) : String := m.parameter.getGrouping index

/-- Source: `PAModel::getStdDevSynthesisRate`. -/
def getStdDevSynthesisRate (m : PAModel) (selectionCategory : Nat) (proposed : Bool) : ℝ :=
  m.parameter.getStdDevSynthesisRate selectionCategory proposed

/-- Source: `PAModel::getSynthesisRate`. -/
def getSynthesisRate (m : PAModel) (index mixture : Nat) (proposed : Bool) : ℝ :=
  m.parameter.getSynthesisRate index mixture proposed

/-- Source: `PAModel::getMixtureAssignment`. -/
def getMixtureAssignment (m : PAModel) (index : Nat) : Nat :=
  m.parameter.getMixtureAssignment index

/-- Source: `PAModel::getNumSynthesisRateCategories`. -/
def getNumSynthesisRateCategories (m : PAModel) : Nat :=
  m.parameter.getNumSynthesisRateCategories

/-- Source: `PAModel::getParameterForCategory`. -/
def getParameterForCategory (m : PAModel) (category param : Nat) (codon : String)
    (proposal : Bool) : ℝ :=
  m.parameter.getParameterForCategory category param codon proposal

/-- Source: `PAModel::calculateExpectedZ`. -/
def calculateExpectedZ (m : PAModel) (genome : Genome) : ℝ :=
  m.parameter.calculateExpectedZ genome

/-! ## calculateY -/

/-- Conversion of an integer to the C++ type `int` (32 bits, two-complement
wrap-around). -/
def wrapInt32 (z : Int) : Int := (z + 2147483648) % 4294967296 - 2147483648

/-- The `int` accumulator `sum` of `PAModel::calculateY` after its loop over
`tmp = genome.getGenes()`. -/
def calculateYSum (genome : Genome) : Int :=
  genome.getGenes.foldl (fun sum gene => wrapInt32 (sum + (gene.getTotalRFPCount : Int))) 0

/-- Source: `PAModel::calculateY`; the `int` sum is returned as a `double`. -/
def calculateY (_m : PAModel) (genome : Genome) : ℝ := ((calculateYSum genome : Int) : ℝ)

/-! ## CodonLikelihood -/

/-- Source: `PAModel::calculateLogLikelihoodPerCodonPerGene`. -/
noncomputable def calculateLogLikelihoodPerCodonPerGene (currAlpha currLambdaPrime : ℝ)
    (currRFPValue currNumCodonsInMRNA : Nat) (phiValue : ℝ) : ℝ :=
  let logLikelihood :=
    ((lgamma (((currNumCodonsInMRNA : ℝ) * currAlpha) + (currRFPValue : ℝ)))
        - (lgamma ((currNumCodonsInMRNA : ℝ) * currAlpha)))
      + ((currRFPValue : ℝ) * (Real.log phiValue - Real.log (currLambdaPrime + phiValue)))
      + (((currNumCodonsInMRNA : ℝ) * currAlpha)
          * (Real.log currLambdaPrime - Real.log (currLambdaPrime + phiValue)))
  logLikelihood

/-- The arguments of one call of `calculateLogLikelihoodPerCodonPerGene`. -/
structure CodonCall where
  alpha : ℝ
  lambdaPrime : ℝ
  rfp : Nat
  numCodons : Nat
  phi : ℝ

/-- The two reduction variables of the loops of the ratio functions, together
with the record (in call order) of the calls of
`calculateLogLikelihoodPerCodonPerGene` made so far. The record is not a C++
variable; it only observes which calls the loop makes. -/
structure LoopState where
  logLikelihood : ℝ
  logLikelihood_proposed : ℝ
  calls : List CodonCall

/-- The state before the first iteration: both sums are `0.0`. -/
def LoopState.start : LoopState :=
  { logLikelihood := 0, logLikelihood_proposed := 0, calls := [] }

/-! ## calculateLogLikelihoodRatioPerGene -/

/-- One iteration (loop variable `index`) of the loop over the group list in
`PAModel::calculateLogLikelihoodRatioPerGene`. -/
noncomputable def perGeneLoopBody (m : PAModel) (gene : Gene)
    (alphaCategory lambdaPrimeCategory : Nat) (phiValue phiValue_proposed : ℝ)
    (acc : LoopState) (index : Nat) : LoopState :=
  let codon := m.getGrouping index
  let currAlpha := m.getParameterForCategory alphaCategory m.parameter.alp codon false
  let currLambdaPrime :=
    m.getParameterForCategory lambdaPrimeCategory m.parameter.lmPri codon false
  let currRFPValue := gene.geneData.getRFPValue index m.RFPCountColumn
  let currNumCodonsInMRNA := gene.geneData.getCodonCountForCodon index
  if currNumCodonsInMRNA = 0 then acc
  else
    { logLikelihood := acc.logLikelihood
        + calculateLogLikelihoodPerCodonPerGene currAlpha currLambdaPrime currRFPValue
            currNumCodonsInMRNA phiValue
      logLikelihood_proposed := acc.logLikelihood_proposed
        + calculateLogLikelihoodPerCodonPerGene currAlpha currLambdaPrime currRFPValue
            currNumCodonsInMRNA phiValue_proposed
      calls := acc.calls ++
        [⟨currAlpha, currLambdaPrime, currRFPValue, currNumCodonsInMRNA, phiValue⟩,
         ⟨currAlpha, currLambdaPrime, currRFPValue, currNumCodonsInMRNA, phiValue_proposed⟩] }

/-- The loop `for (index = 0; index < getGroupListSize(); index++)` of
`PAModel::calculateLogLikelihoodRatioPerGene`. -/
noncomputable def perGeneLoop (m : PAModel) (gene : Gene)
    (alphaCategory lambdaPrimeCategory : Nat) (phiValue phiValue_proposed : ℝ) : LoopState :=
  (List.range m.getGroupListSize).foldl
    (perGeneLoopBody m gene alphaCategory lambdaPrimeCategory phiValue phiValue_proposed)
    LoopState.start

/-- Source: `PAModel::calculateLogLikelihoodRatioPerGene`. The result is the
model after the call (slots 0 to 4 of `CSHyperParameters` written) and the
seven slots written to `logProbabilityRatio`. -/
noncomputable def calculateLogLikelihoodRatioPerGene (P : Parameter) (m : PAModel)
    (gene : Gene) (geneIndex k : Nat) : PAModel × List ℝ :=
  let alphaCategory := m.parameter.getMutationCategory k
  let lambdaPrimeCategory := m.parameter.getSelectionCategory k
  let synthesisRateCategory := m.parameter.getSynthesisRateCategory k
  let phiValue := m.parameter.getSynthesisRate geneIndex synthesisRateCategory false
  let phiValue_proposed := m.parameter.getSynthesisRate geneIndex synthesisRateCategory true
  let loop := perGeneLoop m gene alphaCategory lambdaPrimeCategory phiValue phiValue_proposed
  let logLikelihood := loop.logLikelihood
  let logLikelihood_proposed := loop.logLikelihood_proposed
  let stdDevSynthesisRate := m.parameter.getStdDevSynthesisRate lambdaPrimeCategory false
  let logPhiProbability :=
    P.densityLogNorm phiValue (-(stdDevSynthesisRate * stdDevSynthesisRate) / 2)
      stdDevSynthesisRate true
  let logPhiProbability_proposed :=
    P.densityLogNorm phiValue_proposed (-(stdDevSynthesisRate * stdDevSynthesisRate) / 2)
      stdDevSynthesisRate true
  let currentLogPosterior := logLikelihood + logPhiProbability
  let proposedLogPosterior := logLikelihood_proposed + logPhiProbability_proposed
  let r0 := (proposedLogPosterior - currentLogPosterior)
    - (Real.log phiValue - Real.log phiValue_proposed)
  let r1 := currentLogPosterior - Real.log phiValue_proposed
  let r2 := proposedLogPosterior - Real.log phiValue
  let r3 := currentLogPosterior
  let r4 := proposedLogPosterior
  ({ m with CSHyperParameters := fun slot =>
        if slot = 0 then r0 else if slot = 1 then r1 else if slot = 2 then r2
        else if slot = 3 then r3 else if slot = 4 then r4 else m.CSHyperParameters slot },
    [r0, r1, r2, r3, r4, logLikelihood, logLikelihood_proposed])

/-! ## calculateLogLikelihoodRatioPerGroupingPerCategory -/

/-- One iteration (loop variable `i`) of the loop over the genes in
`PAModel::calculateLogLikelihoodRatioPerGroupingPerCategory`; `index` is
`SequenceSummary::codonToIndex(grouping)`. -/
noncomputable def perGroupingLoopBody (m : PAModel) (grouping : String) (genome : Genome)
    (index : Nat) (acc : LoopState) (i : Nat) : LoopState :=
  let gene := genome.getGene i
  let mixtureElement := m.parameter.getMixtureAssignment i
  let alphaCategory := m.parameter.getMutationCategory mixtureElement
  let lambdaPrimeCategory := m.parameter.getSelectionCategory mixtureElement
  let phiValue := m.parameter.getSynthesisRate i mixtureElement false
  let currRFPValue := gene.geneData.getRFPValue index m.RFPCountColumn
  let currNumCodonsInMRNA := gene.geneData.getCodonCountForCodon index
  if currNumCodonsInMRNA = 0 then acc
  else
    let currAlpha := m.getParameterForCategory alphaCategory m.parameter.alp grouping false
    let currLambdaPrime :=
      m.getParameterForCategory lambdaPrimeCategory m.parameter.lmPri grouping false
    let currLambdaPrime := currLambdaPrime * (m.ExpectedZ / m.Y)
    let propAlpha := m.getParameterForCategory alphaCategory m.parameter.alp grouping true
    let propLambdaPrime :=
      m.getParameterForCategory lambdaPrimeCategory m.parameter.lmPri grouping true
    { logLikelihood := acc.logLikelihood
        + calculateLogLikelihoodPerCodonPerGene currAlpha currLambdaPrime currRFPValue
            currNumCodonsInMRNA phiValue
      logLikelihood_proposed := acc.logLikelihood_proposed
        + calculateLogLikelihoodPerCodonPerGene propAlpha propLambdaPrime currRFPValue
            currNumCodonsInMRNA phiValue
      calls := acc.calls ++
        [⟨currAlpha, currLambdaPrime, currRFPValue, currNumCodonsInMRNA, phiValue⟩,
         ⟨propAlpha, propLambdaPrime, currRFPValue, currNumCodonsInMRNA, phiValue⟩] }

/-- The loop `for (i = 0; i < genome.getGenomeSize(); i++)` of
`PAModel::calculateLogLikelihoodRatioPerGroupingPerCategory`. -/
noncomputable def perGroupingLoop (m : PAModel) (grouping : String) (genome : Genome)
    (index : Nat) : LoopState :=
  (List.range genome.getGenomeSize).foldl (perGroupingLoopBody m grouping genome index)
    LoopState.start

/-- Source: `PAModel::calculateLogLikelihoodRatioPerGroupingPerCategory`. The
result is the model after the call (members `ExpectedZ` and `Y` assigned) and
the five slots written to `logAcceptanceRatioForAllMixtures`. -/
noncomputable def calculateLogLikelihoodRatioPerGroupingPerCategory (S : SequenceSummary)
    (m : PAModel) (grouping : String) (genome : Genome) : PAModel × List ℝ :=
  let m1 : PAModel := { m with ExpectedZ := m.calculateExpectedZ genome }
  let m2 : PAModel := { m1 with Y := m1.calculateY genome }
  let index := S.codonToIndex grouping
  let loop := perGroupingLoop m2 grouping genome index
  let logLikelihood := loop.logLikelihood
  let logLikelihood_proposed := loop.logLikelihood_proposed
  (m2, [logLikelihood_proposed - logLikelihood, logLikelihood, logLikelihood_proposed,
    logLikelihood, logLikelihood_proposed])

/-! ## calculateLogLikelihoodRatioForHyperParameters -/

/-- The local variables of `PAModel::calculateLogLikelihoodRatioForHyperParameters`
that its first loop writes. -/
structure HyperState where
  lpr : ℝ
  currentStdDevSynthesisRate : List ℝ
  currentMphi : List ℝ
  proposedStdDevSynthesisRate : List ℝ
  proposedMphi : List ℝ

/-- The local variables before the first loop: `lpr = 0.0` and four vectors of
`selectionCategory` zeros. -/
def HyperState.start (selectionCategory : Nat) : HyperState :=
  { lpr := 0
    currentStdDevSynthesisRate := List.replicate selectionCategory 0
    currentMphi := List.replicate selectionCategory 0
    proposedStdDevSynthesisRate := List.replicate selectionCategory 0
    proposedMphi := List.replicate selectionCategory 0 }

/-- One iteration (loop variable `i`) of the loop over the synthesis-rate
categories. `cur` and `prop` are the values stored into slot `i` of
`currentStdDevSynthesisRate` and `proposedStdDevSynthesisRate`, which the C++
statements of the same iteration read back from that slot. -/
noncomputable def hyperCategoryLoopBody (P : Parameter) (m : PAModel) (s : HyperState)
    (i : Nat) : HyperState :=
  let cur := m.getStdDevSynthesisRate i false
  let prop := m.getStdDevSynthesisRate i true
  let lpr := s.lpr - (Real.log cur - Real.log prop)
  let lpr := lpr - (P.densityNorm cur 1.0 0.1 true - P.densityNorm prop 1.0 0.1 true)
  { lpr := lpr
    currentStdDevSynthesisRate := s.currentStdDevSynthesisRate.set i cur
    currentMphi := s.currentMphi.set i (-((cur * cur) / 2))
    proposedStdDevSynthesisRate := s.proposedStdDevSynthesisRate.set i prop
    proposedMphi := s.proposedMphi.set i (-((prop * prop) / 2)) }

/-- One iteration (loop variable `i`) of the loop over the genes. The four
vectors are read at subscript `mixture`; a subscript outside a vector has no
defined result in C++ and gives `none`. -/
noncomputable def hyperGeneLoopBody (P : Parameter) (m : PAModel) (s : HyperState)
    (lpr : Option ℝ) (i : Nat) : Option ℝ :=
  let mixture := m.getMixtureAssignment i
  let mixture := m.getSynthesisRateCategory mixture
  let phi := m.getSynthesisRate i mixture false
  match lpr, s.proposedMphi[mixture]?, s.proposedStdDevSynthesisRate[mixture]?,
      s.currentMphi[mixture]?, s.currentStdDevSynthesisRate[mixture]? with
  | some lpr, some pM, some pS, some cM, some cS =>
      some (lpr + (P.densityLogNorm phi pM pS true - P.densityLogNorm phi cM cS true))
  | _, _, _, _, _ => none

/-- Source: `PAModel::calculateLogLikelihoodRatioForHyperParameters`. The
result is the vector `logProbabilityRatio` after the call (one slot), or `none`
when a vector was read outside its bounds. The argument `iteration` is unused,
as in the source. -/
noncomputable def calculateLogLikelihoodRatioForHyperParameters (P : Parameter) (m : PAModel)
    (genome : Genome) (_iteration : Nat) : Option (List ℝ) :=
  let selectionCategory := m.getNumSynthesisRateCategories
  let s := (List.range selectionCategory).foldl (hyperCategoryLoopBody P m)
    (HyperState.start selectionCategory)
  let lpr := (List.range genome.getGenomeSize).foldl (hyperGeneLoopBody P m s) (some s.lpr)
  lpr.map (fun lpr => [lpr])

/-! ## Auxiliary definitions for the statements -/

/-- The loop of `calculateLogLikelihoodRatioPerGene` restricted to the first `n`
group-list indices. -/
noncomputable def perGeneLoopUpTo (m : PAModel) (gene : Gene)
    (alphaCategory lambdaPrimeCategory : Nat) (phiValue phiValue_proposed : ℝ) (n : Nat) :
    LoopState :=
  (List.range n).foldl
    (perGeneLoopBody m gene alphaCategory lambdaPrimeCategory phiValue phiValue_proposed)
    LoopState.start

/-- The loop of `calculateLogLikelihoodRatioPerGroupingPerCategory` restricted to
the first `n` genes. -/
noncomputable def perGroupingLoopUpTo (m : PAModel) (grouping : String) (genome : Genome)
    (index n : Nat) : LoopState :=
  (List.range n).foldl (perGroupingLoopBody m grouping genome index) LoopState.start

/-- The first loop of `calculateLogLikelihoodRatioForHyperParameters` restricted
to the first `n` categories, on vectors of `size` slots. -/
noncomputable def hyperCategoryLoopUpTo (P : Parameter) (m : PAModel) (size n : Nat) :
    HyperState :=
  (List.range n).foldl (hyperCategoryLoopBody P m) (HyperState.start size)

/-- The second loop of `calculateLogLikelihoodRatioForHyperParameters` restricted
to the first `n` genes. -/
noncomputable def hyperGeneLoopUpTo (P : Parameter) (m : PAModel) (s : HyperState)
    (n : Nat) : Option ℝ :=
  (List.range n).foldl (hyperGeneLoopBody P m s) (some s.lpr)

/-- Position in the full group list of position `i` of the list without its
entry `j`. -/
def skipIndex (j i : Nat) : Nat := if i < j then i else i + 1

/-- The model whose group list lacks entry `j`: the list is one shorter and the
later groupings move down one position. Everything else is unchanged. -/
def removeGroup (m : PAModel) (j : Nat) : PAModel :=
  { m with parameter :=
      { m.parameter with
        getGroupListSize := m.parameter.getGroupListSize - 1
        getGrouping := fun index => m.parameter.getGrouping (skipIndex j index) } }

/-- The gene whose per-group data lack entry `j`, matching `removeGroup`. -/
def removeGroupOfGene (gene : Gene) (j : Nat) : Gene :=
  { gene with geneData :=
      { getRFPValue := fun index column => gene.geneData.getRFPValue (skipIndex j index) column
        getCodonCountForCodon := fun index =>
          gene.geneData.getCodonCountForCodon (skipIndex j index)
        getCodonCountForCodonStr := gene.geneData.getCodonCountForCodonStr } }

/-! ## Concrete inputs -/

/-- A concrete density service: the log densities of the normal and of the
log-normal distribution, exponentiated when the flag `log` is off. -/
noncomputable def sampleDensities : Parameter where
  densityLogNorm := fun x mean sd lg =>
    let l := -Real.log x - Real.log sd - Real.log (2 * Real.pi) / 2
      - (Real.log x - mean) ^ 2 / (2 * sd ^ 2)
    if lg then l else Real.exp l
  densityNorm := fun x mean sd lg =>
    let l := -Real.log sd - Real.log (2 * Real.pi) / 2 - (x - mean) ^ 2 / (2 * sd ^ 2)
    if lg then l else Real.exp l

/-- A concrete parameter object: one mixture element made of category 0 three
times, two codon groups, current sigma 1 and proposed sigma 2, current phi 3
and proposed phi 2, current alpha 2 and lambdaPrime 3. -/
noncomputable def sampleParameter : PAParameter where
  alp := 0
  lmPri := 1
  getMutationCategory := fun _ => 0
  getSelectionCategory := fun _ => 0
  getSynthesisRateCategory := fun _ => 0
  getSynthesisRate := fun _ _ proposed => if proposed then 2 else 3
  getParameterForCategory := fun _ param _ proposed =>
    if param = 0 then (if proposed then 1 else 2) else (if proposed then 4 else 3)
  getStdDevSynthesisRate := fun _ proposed => if proposed then 2 else 1
  getMixtureAssignment := fun _ => 0
  getNumSynthesisRateCategories := 1
  getGroupListSize := 2
  getGrouping := fun index => if index = 0 then "AAA" else "AAC"
  calculateExpectedZ := fun _ => 5

/-- The concrete parameter object with the proposed sigma equal to the current
sigma. -/
noncomputable def sampleParameterSameSigma : PAParameter :=
  { sampleParameter with getStdDevSynthesisRate := fun _ _ => 1 }

/-- A concrete model object on `sampleParameter`. -/
noncomputable def sampleModel : PAModel where
  parameter := sampleParameter
  RFPCountColumn := 0
  CSHyperParameters := fun _ => 0
  ExpectedZ := 0
  Y := 0

/-- A concrete model object on `sampleParameterSameSigma`. -/
noncomputable def sampleModelSameSigma : PAModel :=
  { sampleModel with parameter := sampleParameterSameSigma }

/-- A concrete gene: codon group 0 occurs 4 times with 5 footprints, codon
group 1 does not occur. -/
def sampleGene : Gene where
  geneData :=
    { getRFPValue := fun index _ => if index = 0 then 5 else 0
      getCodonCountForCodon := fun index => if index = 0 then 4 else 0
      getCodonCountForCodonStr := fun codon => if codon = "AAA" then 4 else 0 }
  getTotalRFPCount := 5

/-- A concrete genome of two copies of `sampleGene`. -/
def sampleGenome : Genome := { genes := [sampleGene, sampleGene] }

/-! ## The Gamma-Poisson mixture, following the specification -/

/-- Following the specification (section 4.1): density at `x` of the Gamma
distribution with shape `a` and rate `b`. -/
noncomputable def gammaDensity (a b x : ℝ) : ℝ :=
  b ^ a / Real.Gamma a * x ^ (a - 1) * Real.exp (-(b * x))

/-- Following the specification (section 4.1): probability of the count `r`
under the Poisson distribution with mean `mu`. -/
noncomputable def poissonMass (mu : ℝ) (r : Nat) : ℝ :=
  Real.exp (-mu) * mu ^ r / (r.factorial : ℝ)

/-- Following the specification (section 4.1): probability of the count `r`
when a latent rate is drawn from Gamma(shape, rate) and the count from
Poisson(phi * latent). -/
noncomputable def gammaPoissonMass (shape rate phi : ℝ) (r : Nat) : ℝ :=
  ∫ x in Set.Ioi 0, poissonMass (phi * x) r * gammaDensity shape rate x

/-- Following the claim on the negative-binomial form: the closed form
Gamma(n*alpha + r) / (Gamma(n*alpha) * r!) * (phi/(lambdaPrime+phi))^r
* (lambdaPrime/(lambdaPrime+phi))^(n*alpha). -/
noncomputable def negativeBinomialMass (alpha lambdaPrime : ℝ) (r n : Nat) (phi : ℝ) : ℝ :=
  Real.Gamma ((n : ℝ) * alpha + (r : ℝ)) / (Real.Gamma ((n : ℝ) * alpha) * (r.factorial : ℝ))
    * (phi / (lambdaPrime + phi)) ^ r
    * (lambdaPrime / (lambdaPrime + phi)) ^ ((n : ℝ) * alpha)

/-- A concrete parameter object with two mixture elements and two
synthesis-rate categories: mixture element 0 has synthesis-rate category 1 and
mixture element 1 has category 0; every gene is assigned mixture element 1. The
current synthesis rate read with mixture element 1 is 3 and the one read with
mixture element 0 is 1; current sigma is 1 and proposed sigma is 2. -/
noncomputable def crossedParameter : PAParameter :=
  { sampleParameter with
    getSynthesisRateCategory := fun mixture => if mixture = 0 then 1 else 0
    getMixtureAssignment := fun _ => 1
    getNumSynthesisRateCategories := 2
    getSynthesisRate := fun _ mixture _ => if mixture = 0 then 1 else 3 }

/-- A concrete model object on `crossedParameter`. -/
noncomputable def crossedModel : PAModel :=
  { sampleModel with parameter := crossedParameter }

/-- A concrete genome of one gene. -/
def oneGeneGenome : Genome := { genes := [sampleGene] }

/-- The summand of one gene in `calculateLogLikelihoodRatioForHyperParameters`
when the synthesis rate of the gene is `phi` and its synthesis-rate category is
`c`. -/
noncomputable def hyperGeneTerm (P : Parameter) (m : PAModel) (phi : ℝ) (c : Nat) : ℝ :=
  P.densityLogNorm phi
      (-((m.getStdDevSynthesisRate c true * m.getStdDevSynthesisRate c true) / 2))
      (m.getStdDevSynthesisRate c true) true
    - P.densityLogNorm phi
      (-((m.getStdDevSynthesisRate c false * m.getStdDevSynthesisRate c false) / 2))
      (m.getStdDevSynthesisRate c false) true

/-- The sum over the categories in `calculateLogLikelihoodRatioForHyperParameters`. -/
noncomputable def hyperCategorySum (P : Parameter) (m : PAModel) : ℝ :=
  ∑ c ∈ Finset.range m.getNumSynthesisRateCategories,
    (-(Real.log (m.getStdDevSynthesisRate c false)
        - Real.log (m.getStdDevSynthesisRate c true))
      - (P.densityNorm (m.getStdDevSynthesisRate c false) 1.0 0.1 true
        - P.densityNorm (m.getStdDevSynthesisRate c true) 1.0 0.1 true))

/-- A concrete parameter object with a non-positive alpha: one codon group,
current alpha -1/2, current lambdaPrime 1, current and proposed phi 1. -/
noncomputable def negativeAlphaParameter : PAParameter :=
  { sampleParameter with
    getGroupListSize := 1
    getSynthesisRate := fun _ _ _ => 1
    getParameterForCategory := fun _ param _ _ => if param = 0 then -1 / 2 else 1 }

/-- A concrete model object on `negativeAlphaParameter`. -/
noncomputable def negativeAlphaModel : PAModel :=
  { sampleModel with parameter := negativeAlphaParameter }

/-- A concrete gene: codon group 0 occurs once, without footprints. -/
def unobservedGene : Gene where
  geneData :=
    { getRFPValue := fun _ _ => 0
      getCodonCountForCodon := fun index => if index = 0 then 1 else 0
      getCodonCountForCodonStr := fun codon => if codon = "AAA" then 1 else 0 }
  getTotalRFPCount := 0

/-- A concrete gene with 1073741824 footprints, all on codon group 0. -/
def largeCountGene : Gene where
  geneData :=
    { getRFPValue := fun index _ => if index = 0 then 1073741824 else 0
      getCodonCountForCodon := fun index => if index = 0 then 4 else 0
      getCodonCountForCodonStr := fun codon => if codon = "AAA" then 4 else 0 }
  getTotalRFPCount := 1073741824

/-- A concrete genome of two copies of `largeCountGene`. -/
def largeCountGenome : Genome := { genes := [largeCountGene, largeCountGene] }

/-! ## updateCodonSpecificHyperParameter -/

/-- Source: `PAModel::updateCodonSpecificHyperParameter`. The member function of
the same name of the parameter object is the argument `update`: it maps the
parameter object and the seven call arguments, in call order, to the parameter
object after the call. -/
def updateCodonSpecificHyperParameter
    (update : PAParameter → String → ℝ → ℝ → ℝ → ℝ → ℝ → ℝ → PAParameter)
    (m : PAModel) (aa : String) (randomNumber : ℝ) : PAModel :=
  let parameterAfter :=
    update m.parameter aa randomNumber (m.CSHyperParameters 0) (m.CSHyperParameters 3)
      (m.CSHyperParameters 4) (m.CSHyperParameters 1) (m.CSHyperParameters 2)
  { m with parameter := parameterAfter }

/-- A concrete parameter object whose proposed alpha and lambdaPrime equal the
current ones (2 and 3) and whose ExpectedZ is 10. -/
noncomputable def unchangedCodonParameter : PAParameter :=
  { sampleParameter with
    getParameterForCategory := fun _ param _ _ => if param = 0 then 2 else 3
    calculateExpectedZ := fun _ => 10 }

/-- A concrete model object on `unchangedCodonParameter`. -/
noncomputable def unchangedCodonModel : PAModel :=
  { sampleModel with parameter := unchangedCodonParameter }

/-- A concrete instance of the static members of SequenceSummary for two
codons. -/
def sampleSequenceSummary : SequenceSummary where
  codonToIndex := fun codon => if codon = "AAA" then 0 else 1
  codonArray := fun index => if index = 0 then "AAA" else "AAC"

/-- Every argument that `calculateLogLikelihoodPerCodonPerGene` passes to
`std::lgamma` or `std::log` in the call `c` is greater than zero. -/
def CodonCall.inDomain (c : CodonCall) : Prop :=
  0 < (c.numCodons : ℝ) * c.alpha + (c.rfp : ℝ)
    ∧ 0 < (c.numCodons : ℝ) * c.alpha
    ∧ 0 < c.phi
    ∧ 0 < c.lambdaPrime + c.phi
    ∧ 0 < c.lambdaPrime

/-- A concrete genome of one gene without footprints. -/
def unobservedGenome : Genome := { genes := [unobservedGene] }

/-! ## simulateGenome -/

end PAModel

/-- Slot `i` of a result vector. -/
def slot (result : List ℝ) (i : Nat) : ℝ := result.getD i 0

/-! # Theorems -/

namespace PAModel

/-! ## Lemmas on the loops -/

theorem perGeneLoopUpTo_succ (m : PAModel) (gene : Gene) (aC lC : Nat) (phi phiP : ℝ)
    (n : Nat) :
    perGeneLoopUpTo m gene aC lC phi phiP (n + 1)
      = perGeneLoopBody m gene aC lC phi phiP (perGeneLoopUpTo m gene aC lC phi phiP n) n := by
  simp [perGeneLoopUpTo, List.range_succ, List.foldl_append]

theorem perGeneLoopUpTo_logLikelihood (m : PAModel) (gene : Gene) (aC lC : Nat)
    (phi phiP : ℝ) (n : Nat) :
    (perGeneLoopUpTo m gene aC lC phi phiP n).logLikelihood
      = ∑ index ∈ (Finset.range n).filter
            (fun index => gene.geneData.getCodonCountForCodon index ≠ 0),
          calculateLogLikelihoodPerCodonPerGene
            (m.getParameterForCategory aC m.parameter.alp (m.getGrouping index) false)
            (m.getParameterForCategory lC m.parameter.lmPri (m.getGrouping index) false)
            (gene.geneData.getRFPValue index m.RFPCountColumn)
            (gene.geneData.getCodonCountForCodon index) phi := by
  induction n with
  | zero => simp [perGeneLoopUpTo, LoopState.start]
  | succ n ih =>
    rw [perGeneLoopUpTo_succ, Finset.range_succ, Finset.filter_insert]
    by_cases h : gene.geneData.getCodonCountForCodon n = 0
    · simp [perGeneLoopBody, h, ih]
    · rw [if_pos h, Finset.sum_insert (by simp), ← ih]
      simp [perGeneLoopBody, h, add_comm]

theorem perGeneLoopUpTo_logLikelihood_proposed (m : PAModel) (gene : Gene) (aC lC : Nat)
    (phi phiP : ℝ) (n : Nat) :
    (perGeneLoopUpTo m gene aC lC phi phiP n).logLikelihood_proposed
      = ∑ index ∈ (Finset.range n).filter
            (fun index => gene.geneData.getCodonCountForCodon index ≠ 0),
          calculateLogLikelihoodPerCodonPerGene
            (m.getParameterForCategory aC m.parameter.alp (m.getGrouping index) false)
            (m.getParameterForCategory lC m.parameter.lmPri (m.getGrouping index) false)
            (gene.geneData.getRFPValue index m.RFPCountColumn)
            (gene.geneData.getCodonCountForCodon index) phiP := by
  induction n with
  | zero => simp [perGeneLoopUpTo, LoopState.start]
  | succ n ih =>
    rw [perGeneLoopUpTo_succ, Finset.range_succ, Finset.filter_insert]
    by_cases h : gene.geneData.getCodonCountForCodon n = 0
    · simp [perGeneLoopBody, h, ih]
    · rw [if_pos h, Finset.sum_insert (by simp), ← ih]
      simp [perGeneLoopBody, h, add_comm]

theorem perGeneLoop_eq_upTo (m : PAModel) (gene : Gene) (aC lC : Nat) (phi phiP : ℝ) :
    perGeneLoop m gene aC lC phi phiP
      = perGeneLoopUpTo m gene aC lC phi phiP m.getGroupListSize := rfl

/-! ## Theorems -/

/-- C1: for alpha, lambdaPrime, phi greater than zero, a codon count n greater
than zero and any footprint count r, calculateLogLikelihoodPerCodonPerGene
returns lgamma(n*alpha + r) - lgamma(n*alpha) + r*(log(phi) - log(lambdaPrime + phi))
+ n*alpha*(log(lambdaPrime) - log(lambdaPrime + phi)). -/
theorem C1_codonLikelihood_formula (alpha lambdaPrime phi : ℝ) (n r : Nat)
    (_hAlpha : 0 < alpha) (_hLambdaPrime : 0 < lambdaPrime) (_hPhi : 0 < phi) (_hn : 0 < n) :
    calculateLogLikelihoodPerCodonPerGene alpha lambdaPrime r n phi
      = lgamma (n * alpha + r) - lgamma (n * alpha)
        + r * (Real.log phi - Real.log (lambdaPrime + phi))
        + n * alpha * (Real.log lambdaPrime - Real.log (lambdaPrime + phi)) := by
  rfl

/-- Witness of C1 at alpha = 2, lambdaPrime = 3, phi = 3, n = 4, r = 5. -/
theorem C1_codonLikelihood_formula_witness :
    (0 : ℝ) < 2 ∧ (0 : ℝ) < 3 ∧ 0 < 4
      ∧ calculateLogLikelihoodPerCodonPerGene 2 3 5 4 3
        = lgamma ((4 : Nat) * 2 + (5 : Nat)) - lgamma ((4 : Nat) * 2)
          + (5 : Nat) * (Real.log 3 - Real.log (3 + 3))
          + (4 : Nat) * 2 * (Real.log 3 - Real.log (3 + 3)) :=
  ⟨by norm_num, by norm_num, by decide,
    C1_codonLikelihood_formula 2 3 3 4 5 (by norm_num) (by norm_num) (by norm_num)
      (by decide)⟩

/-- C2: slots 5 and 6 of the result of calculateLogLikelihoodRatioPerGene are
the sums of calculateLogLikelihoodPerCodonPerGene over exactly the group-list
indices whose codon count in the gene is nonzero. Both sums use the current
alpha of the mutation category of k, the current lambdaPrime of the selection
category of k and the same footprint and codon counts; slot 5 uses the current
synthesis rate of the gene and slot 6 the proposed one. -/
theorem C2_perGene_raw_sums (P : Parameter) (m : PAModel) (gene : Gene) (geneIndex k : Nat) :
    slot (calculateLogLikelihoodRatioPerGene P m gene geneIndex k).2 5
        = ∑ index ∈ (Finset.range m.getGroupListSize).filter
              (fun index => gene.geneData.getCodonCountForCodon index ≠ 0),
            calculateLogLikelihoodPerCodonPerGene
              (m.getParameterForCategory (m.getMutationCategory k) m.parameter.alp
                (m.getGrouping index) false)
              (m.getParameterForCategory (m.getSelectionCategory k) m.parameter.lmPri
                (m.getGrouping index) false)
              (gene.geneData.getRFPValue index m.RFPCountColumn)
              (gene.geneData.getCodonCountForCodon index)
              (m.getSynthesisRate geneIndex (m.getSynthesisRateCategory k) false)
      ∧ slot (calculateLogLikelihoodRatioPerGene P m gene geneIndex k).2 6
        = ∑ index ∈ (Finset.range m.getGroupListSize).filter
              (fun index => gene.geneData.getCodonCountForCodon index ≠ 0),
            calculateLogLikelihoodPerCodonPerGene
              (m.getParameterForCategory (m.getMutationCategory k) m.parameter.alp
                (m.getGrouping index) false)
              (m.getParameterForCategory (m.getSelectionCategory k) m.parameter.lmPri
                (m.getGrouping index) false)
              (gene.geneData.getRFPValue index m.RFPCountColumn)
              (gene.geneData.getCodonCountForCodon index)
              (m.getSynthesisRate geneIndex (m.getSynthesisRateCategory k) true) := by
  constructor
  · simp only [calculateLogLikelihoodRatioPerGene, slot, perGeneLoop_eq_upTo,
      perGeneLoopUpTo_logLikelihood]
    rfl
  · simp only [calculateLogLikelihoodRatioPerGene, slot, perGeneLoop_eq_upTo,
      perGeneLoopUpTo_logLikelihood_proposed]
    rfl

/-- C3: for all inputs of calculateLogLikelihoodRatioPerGene, the result has
seven slots, slot 0 equals
(slot 4 - slot 3) - (log(phi_current) - log(phi_proposed)), slot 1 equals
slot 3 - log(phi_proposed) and slot 2 equals slot 4 - log(phi_current), where
phi_current and phi_proposed are the current and proposed synthesis rates of
the gene for the synthesis-rate category of k. -/
theorem C3_perGene_jacobian_slots (P : Parameter) (m : PAModel) (gene : Gene)
    (geneIndex k : Nat) :
    (calculateLogLikelihoodRatioPerGene P m gene geneIndex k).2.length = 7
      ∧ slot (calculateLogLikelihoodRatioPerGene P m gene geneIndex k).2 0
        = (slot (calculateLogLikelihoodRatioPerGene P m gene geneIndex k).2 4
            - slot (calculateLogLikelihoodRatioPerGene P m gene geneIndex k).2 3)
          - (Real.log (m.getSynthesisRate geneIndex (m.getSynthesisRateCategory k) false)
            - Real.log (m.getSynthesisRate geneIndex (m.getSynthesisRateCategory k) true))
      ∧ slot (calculateLogLikelihoodRatioPerGene P m gene geneIndex k).2 1
        = slot (calculateLogLikelihoodRatioPerGene P m gene geneIndex k).2 3
          - Real.log (m.getSynthesisRate geneIndex (m.getSynthesisRateCategory k) true)
      ∧ slot (calculateLogLikelihoodRatioPerGene P m gene geneIndex k).2 2
        = slot (calculateLogLikelihoodRatioPerGene P m gene geneIndex k).2 4
          - Real.log (m.getSynthesisRate geneIndex (m.getSynthesisRateCategory k) false) := by
  refine ⟨rfl, rfl, rfl, rfl⟩

/-- C4: for all inputs of calculateLogLikelihoodRatioPerGene, slot 3 equals
slot 5 plus densityLogNorm(phi_current, -sigma^2/2, sigma, log) and slot 4
equals slot 6 plus densityLogNorm(phi_proposed, -sigma^2/2, sigma, log), where
sigma is the current standard deviation of the synthesis rate of the selection
category of k in both slots. -/
theorem C4_perGene_prior_slots (P : Parameter) (m : PAModel) (gene : Gene)
    (geneIndex k : Nat) :
    slot (calculateLogLikelihoodRatioPerGene P m gene geneIndex k).2 3
        = slot (calculateLogLikelihoodRatioPerGene P m gene geneIndex k).2 5
          + P.densityLogNorm
              (m.getSynthesisRate geneIndex (m.getSynthesisRateCategory k) false)
              (-(m.getStdDevSynthesisRate (m.getSelectionCategory k) false) ^ 2 / 2)
              (m.getStdDevSynthesisRate (m.getSelectionCategory k) false) true
      ∧ slot (calculateLogLikelihoodRatioPerGene P m gene geneIndex k).2 4
        = slot (calculateLogLikelihoodRatioPerGene P m gene geneIndex k).2 6
          + P.densityLogNorm
              (m.getSynthesisRate geneIndex (m.getSynthesisRateCategory k) true)
              (-(m.getStdDevSynthesisRate (m.getSelectionCategory k) false) ^ 2 / 2)
              (m.getStdDevSynthesisRate (m.getSelectionCategory k) false) true := by
  have h : ∀ s : ℝ, -s ^ 2 / 2 = -(s * s) / 2 := fun s => by ring
  simp only [h]
  exact ⟨rfl, rfl⟩

theorem perGroupingLoopUpTo_succ (m : PAModel) (grouping : String) (genome : Genome)
    (index n : Nat) :
    perGroupingLoopUpTo m grouping genome index (n + 1)
      = perGroupingLoopBody m grouping genome index
          (perGroupingLoopUpTo m grouping genome index n) n := by
  simp [perGroupingLoopUpTo, List.range_succ, List.foldl_append]

theorem perGroupingLoopUpTo_logLikelihood (m : PAModel) (grouping : String) (genome : Genome)
    (index n : Nat) :
    (perGroupingLoopUpTo m grouping genome index n).logLikelihood
      = ∑ i ∈ (Finset.range n).filter
            (fun i => (genome.getGene i).geneData.getCodonCountForCodon index ≠ 0),
          calculateLogLikelihoodPerCodonPerGene
            (m.getParameterForCategory (m.getMutationCategory (m.getMixtureAssignment i))
              m.parameter.alp grouping false)
            (m.getParameterForCategory (m.getSelectionCategory (m.getMixtureAssignment i))
              m.parameter.lmPri grouping false * (m.ExpectedZ / m.Y))
            ((genome.getGene i).geneData.getRFPValue index m.RFPCountColumn)
            ((genome.getGene i).geneData.getCodonCountForCodon index)
            (m.getSynthesisRate i (m.getMixtureAssignment i) false) := by
  induction n with
  | zero => simp [perGroupingLoopUpTo, LoopState.start]
  | succ n ih =>
    rw [perGroupingLoopUpTo_succ, Finset.range_succ, Finset.filter_insert]
    by_cases h : (genome.getGene n).geneData.getCodonCountForCodon index = 0
    · simp [perGroupingLoopBody, h, ih]
    · rw [if_pos h, Finset.sum_insert (by simp), ← ih]
      simp [perGroupingLoopBody, h, add_comm, getMutationCategory, getSelectionCategory,
        getMixtureAssignment, getSynthesisRate]

theorem perGroupingLoopUpTo_logLikelihood_proposed (m : PAModel) (grouping : String)
    (genome : Genome) (index n : Nat) :
    (perGroupingLoopUpTo m grouping genome index n).logLikelihood_proposed
      = ∑ i ∈ (Finset.range n).filter
            (fun i => (genome.getGene i).geneData.getCodonCountForCodon index ≠ 0),
          calculateLogLikelihoodPerCodonPerGene
            (m.getParameterForCategory (m.getMutationCategory (m.getMixtureAssignment i))
              m.parameter.alp grouping true)
            (m.getParameterForCategory (m.getSelectionCategory (m.getMixtureAssignment i))
              m.parameter.lmPri grouping true)
            ((genome.getGene i).geneData.getRFPValue index m.RFPCountColumn)
            ((genome.getGene i).geneData.getCodonCountForCodon index)
            (m.getSynthesisRate i (m.getMixtureAssignment i) false) := by
  induction n with
  | zero => simp [perGroupingLoopUpTo, LoopState.start]
  | succ n ih =>
    rw [perGroupingLoopUpTo_succ, Finset.range_succ, Finset.filter_insert]
    by_cases h : (genome.getGene n).geneData.getCodonCountForCodon index = 0
    · simp [perGroupingLoopBody, h, ih]
    · rw [if_pos h, Finset.sum_insert (by simp), ← ih]
      simp [perGroupingLoopBody, h, add_comm, getMutationCategory, getSelectionCategory,
        getMixtureAssignment, getSynthesisRate]

theorem perGroupingLoop_eq_upTo (m : PAModel) (grouping : String) (genome : Genome)
    (index : Nat) :
    perGroupingLoop m grouping genome index
      = perGroupingLoopUpTo m grouping genome index genome.getGenomeSize := rfl

/-- C5: the current total (slot 1) of
calculateLogLikelihoodRatioPerGroupingPerCategory is the sum, over exactly the
genes whose codon count for the codon group is nonzero, of
calculateLogLikelihoodPerCodonPerGene at the current alpha, the current
lambdaPrime times ExpectedZ / Y, the footprint and codon counts of the gene and
the current synthesis rate of the gene for its mixture element; the proposed
total (slot 2) is the sum over the same genes at the proposed alpha, the proposed
lambdaPrime without scaling and the same counts and synthesis rate. A gene with
codon count zero is in neither sum. -/
theorem C5_perGrouping_totals (S : SequenceSummary) (m : PAModel) (grouping : String)
    (genome : Genome) :
    slot (calculateLogLikelihoodRatioPerGroupingPerCategory S m grouping genome).2 1
        = ∑ i ∈ (Finset.range genome.getGenomeSize).filter
              (fun i => (genome.getGene i).geneData.getCodonCountForCodon
                (S.codonToIndex grouping) ≠ 0),
            calculateLogLikelihoodPerCodonPerGene
              (m.getParameterForCategory (m.getMutationCategory (m.getMixtureAssignment i))
                m.parameter.alp grouping false)
              (m.getParameterForCategory (m.getSelectionCategory (m.getMixtureAssignment i))
                m.parameter.lmPri grouping false
                * m.calculateExpectedZ genome / m.calculateY genome)
              ((genome.getGene i).geneData.getRFPValue (S.codonToIndex grouping)
                m.RFPCountColumn)
              ((genome.getGene i).geneData.getCodonCountForCodon (S.codonToIndex grouping))
              (m.getSynthesisRate i (m.getMixtureAssignment i) false)
      ∧ slot (calculateLogLikelihoodRatioPerGroupingPerCategory S m grouping genome).2 2
        = ∑ i ∈ (Finset.range genome.getGenomeSize).filter
              (fun i => (genome.getGene i).geneData.getCodonCountForCodon
                (S.codonToIndex grouping) ≠ 0),
            calculateLogLikelihoodPerCodonPerGene
              (m.getParameterForCategory (m.getMutationCategory (m.getMixtureAssignment i))
                m.parameter.alp grouping true)
              (m.getParameterForCategory (m.getSelectionCategory (m.getMixtureAssignment i))
                m.parameter.lmPri grouping true)
              ((genome.getGene i).geneData.getRFPValue (S.codonToIndex grouping)
                m.RFPCountColumn)
              ((genome.getGene i).geneData.getCodonCountForCodon (S.codonToIndex grouping))
              (m.getSynthesisRate i (m.getMixtureAssignment i) false) := by
  constructor
  · simp only [calculateLogLikelihoodRatioPerGroupingPerCategory, slot,
      perGroupingLoop_eq_upTo, perGroupingLoopUpTo_logLikelihood, mul_div_assoc]
    rfl
  · simp only [calculateLogLikelihoodRatioPerGroupingPerCategory, slot,
      perGroupingLoop_eq_upTo, perGroupingLoopUpTo_logLikelihood_proposed]
    rfl

/-- C6: the result of calculateLogLikelihoodRatioPerGroupingPerCategory has
exactly five slots. Slot 1 is the current total log-likelihood: the sum, over
the genes with nonzero codon count for the codon group, of
calculateLogLikelihoodPerCodonPerGene at the current alpha and the current
lambdaPrime times ExpectedZ / Y. Slot 2 is the proposed total: the sum over the
same genes at the proposed alpha and the proposed lambdaPrime. Slot 0 equals
slot 2 - slot 1, slot 3 equals slot 1 and slot 4 equals slot 2. -/
theorem C6_perGrouping_slots (S : SequenceSummary) (m : PAModel) (grouping : String)
    (genome : Genome) :
    (calculateLogLikelihoodRatioPerGroupingPerCategory S m grouping genome).2.length = 5
      ∧ slot (calculateLogLikelihoodRatioPerGroupingPerCategory S m grouping genome).2 1
        = ∑ i ∈ (Finset.range genome.getGenomeSize).filter
              (fun i => (genome.getGene i).geneData.getCodonCountForCodon
                (S.codonToIndex grouping) ≠ 0),
            calculateLogLikelihoodPerCodonPerGene
              (m.getParameterForCategory (m.getMutationCategory (m.getMixtureAssignment i))
                m.parameter.alp grouping false)
              (m.getParameterForCategory (m.getSelectionCategory (m.getMixtureAssignment i))
                m.parameter.lmPri grouping false
                * (m.calculateExpectedZ genome / m.calculateY genome))
              ((genome.getGene i).geneData.getRFPValue (S.codonToIndex grouping)
                m.RFPCountColumn)
              ((genome.getGene i).geneData.getCodonCountForCodon (S.codonToIndex grouping))
              (m.getSynthesisRate i (m.getMixtureAssignment i) false)
      ∧ slot (calculateLogLikelihoodRatioPerGroupingPerCategory S m grouping genome).2 2
        = ∑ i ∈ (Finset.range genome.getGenomeSize).filter
              (fun i => (genome.getGene i).geneData.getCodonCountForCodon
                (S.codonToIndex grouping) ≠ 0),
            calculateLogLikelihoodPerCodonPerGene
              (m.getParameterForCategory (m.getMutationCategory (m.getMixtureAssignment i))
                m.parameter.alp grouping true)
              (m.getParameterForCategory (m.getSelectionCategory (m.getMixtureAssignment i))
                m.parameter.lmPri grouping true)
              ((genome.getGene i).geneData.getRFPValue (S.codonToIndex grouping)
                m.RFPCountColumn)
              ((genome.getGene i).geneData.getCodonCountForCodon (S.codonToIndex grouping))
              (m.getSynthesisRate i (m.getMixtureAssignment i) false)
      ∧ slot (calculateLogLikelihoodRatioPerGroupingPerCategory S m grouping genome).2 0
        = slot (calculateLogLikelihoodRatioPerGroupingPerCategory S m grouping genome).2 2
          - slot (calculateLogLikelihoodRatioPerGroupingPerCategory S m grouping genome).2 1
      ∧ slot (calculateLogLikelihoodRatioPerGroupingPerCategory S m grouping genome).2 3
        = slot (calculateLogLikelihoodRatioPerGroupingPerCategory S m grouping genome).2 1
      ∧ slot (calculateLogLikelihoodRatioPerGroupingPerCategory S m grouping genome).2 4
        = slot (calculateLogLikelihoodRatioPerGroupingPerCategory S m grouping genome).2 2 := by
  refine ⟨rfl, ?_, ?_, rfl, rfl, rfl⟩
  · simp only [calculateLogLikelihoodRatioPerGroupingPerCategory, slot,
      perGroupingLoop_eq_upTo, perGroupingLoopUpTo_logLikelihood]
    rfl
  · simp only [calculateLogLikelihoodRatioPerGroupingPerCategory, slot,
      perGroupingLoop_eq_upTo, perGroupingLoopUpTo_logLikelihood_proposed]
    rfl

theorem hyperCategoryLoopUpTo_succ (P : Parameter) (m : PAModel) (size n : Nat) :
    hyperCategoryLoopUpTo P m size (n + 1)
      = hyperCategoryLoopBody P m (hyperCategoryLoopUpTo P m size n) n := by
  simp [hyperCategoryLoopUpTo, List.range_succ, List.foldl_append]

theorem hyperCategoryLoopUpTo_lpr (P : Parameter) (m : PAModel) (size n : Nat) :
    (hyperCategoryLoopUpTo P m size n).lpr
      = ∑ c ∈ Finset.range n,
          (-(Real.log (m.getStdDevSynthesisRate c false)
              - Real.log (m.getStdDevSynthesisRate c true))
            - (P.densityNorm (m.getStdDevSynthesisRate c false) 1.0 0.1 true
              - P.densityNorm (m.getStdDevSynthesisRate c true) 1.0 0.1 true)) := by
  induction n with
  | zero => simp [hyperCategoryLoopUpTo, HyperState.start]
  | succ n ih =>
    rw [hyperCategoryLoopUpTo_succ, Finset.sum_range_succ, ← ih]
    simp only [hyperCategoryLoopBody]
    ring

theorem hyperCategoryLoopUpTo_length (P : Parameter) (m : PAModel) (size n : Nat) :
    (hyperCategoryLoopUpTo P m size n).currentStdDevSynthesisRate.length = size
      ∧ (hyperCategoryLoopUpTo P m size n).currentMphi.length = size
      ∧ (hyperCategoryLoopUpTo P m size n).proposedStdDevSynthesisRate.length = size
      ∧ (hyperCategoryLoopUpTo P m size n).proposedMphi.length = size := by
  induction n with
  | zero => simp [hyperCategoryLoopUpTo, HyperState.start]
  | succ n ih =>
    rw [hyperCategoryLoopUpTo_succ]
    simpa [hyperCategoryLoopBody] using ih

theorem hyperCategoryLoopUpTo_vectors (P : Parameter) (m : PAModel) (size n : Nat)
    (hn : n ≤ size) (c : Nat) (hc : c < n) :
    (hyperCategoryLoopUpTo P m size n).currentStdDevSynthesisRate[c]?
        = some (m.getStdDevSynthesisRate c false)
      ∧ (hyperCategoryLoopUpTo P m size n).currentMphi[c]?
        = some (-((m.getStdDevSynthesisRate c false * m.getStdDevSynthesisRate c false) / 2))
      ∧ (hyperCategoryLoopUpTo P m size n).proposedStdDevSynthesisRate[c]?
        = some (m.getStdDevSynthesisRate c true)
      ∧ (hyperCategoryLoopUpTo P m size n).proposedMphi[c]?
        = some (-((m.getStdDevSynthesisRate c true * m.getStdDevSynthesisRate c true) / 2)) := by
  induction n with
  | zero => exact absurd hc (Nat.not_lt_zero c)
  | succ n ih =>
    obtain ⟨l1, l2, l3, l4⟩ := hyperCategoryLoopUpTo_length P m size n
    rw [hyperCategoryLoopUpTo_succ]
    by_cases hcn : c = n
    · subst hcn
      have hlt : c < size := hn
      simp [hyperCategoryLoopBody, List.getElem?_set, l1, l2, l3, l4, hlt]
    · have hc2 : c < n := by omega
      have hne : n ≠ c := fun h => hcn h.symm
      obtain ⟨i1, i2, i3, i4⟩ := ih (by omega) hc2
      simp [hyperCategoryLoopBody, List.getElem?_set, hne, i1, i2, i3, i4]

theorem hyperGeneLoopUpTo_succ (P : Parameter) (m : PAModel) (s : HyperState) (n : Nat) :
    hyperGeneLoopUpTo P m s (n + 1)
      = hyperGeneLoopBody P m s (hyperGeneLoopUpTo P m s n) n := by
  simp [hyperGeneLoopUpTo, List.range_succ, List.foldl_append]

theorem hyperGeneLoopUpTo_eq (P : Parameter) (m : PAModel) (n : Nat)
    (hwf : ∀ i, i < n →
      m.getSynthesisRateCategory (m.getMixtureAssignment i) < m.getNumSynthesisRateCategories) :
    hyperGeneLoopUpTo P m
        (hyperCategoryLoopUpTo P m m.getNumSynthesisRateCategories
          m.getNumSynthesisRateCategories) n
      = some ((hyperCategoryLoopUpTo P m m.getNumSynthesisRateCategories
            m.getNumSynthesisRateCategories).lpr
          + ∑ i ∈ Finset.range n,
              (P.densityLogNorm
                  (m.getSynthesisRate i (m.getSynthesisRateCategory (m.getMixtureAssignment i))
                    false)
                  (-((m.getStdDevSynthesisRate
                        (m.getSynthesisRateCategory (m.getMixtureAssignment i)) true
                      * m.getStdDevSynthesisRate
                        (m.getSynthesisRateCategory (m.getMixtureAssignment i)) true) / 2))
                  (m.getStdDevSynthesisRate
                    (m.getSynthesisRateCategory (m.getMixtureAssignment i)) true) true
                - P.densityLogNorm
                  (m.getSynthesisRate i (m.getSynthesisRateCategory (m.getMixtureAssignment i))
                    false)
                  (-((m.getStdDevSynthesisRate
                        (m.getSynthesisRateCategory (m.getMixtureAssignment i)) false
                      * m.getStdDevSynthesisRate
                        (m.getSynthesisRateCategory (m.getMixtureAssignment i)) false) / 2))
                  (m.getStdDevSynthesisRate
                    (m.getSynthesisRateCategory (m.getMixtureAssignment i)) false) true)) := by
  induction n with
  | zero => simp [hyperGeneLoopUpTo]
  | succ n ih =>
    obtain ⟨v1, v2, v3, v4⟩ := hyperCategoryLoopUpTo_vectors P m
      m.getNumSynthesisRateCategories m.getNumSynthesisRateCategories (le_refl _)
      (m.getSynthesisRateCategory (m.getMixtureAssignment n)) (hwf n (Nat.lt_succ_self n))
    rw [hyperGeneLoopUpTo_succ, ih (fun i hi => hwf i (Nat.lt_succ_of_lt hi)),
      Finset.sum_range_succ]
    simp only [hyperGeneLoopBody, v1, v2, v3, v4]
    rw [add_assoc]

/-- The result of calculateLogLikelihoodRatioForHyperParameters as two sums,
when every gene has a synthesis-rate category below the number of categories. -/
theorem hyper_result_eq (P : Parameter) (m : PAModel) (genome : Genome) (iteration : Nat)
    (hwf : ∀ i, i < genome.getGenomeSize →
      m.getSynthesisRateCategory (m.getMixtureAssignment i) < m.getNumSynthesisRateCategories) :
    calculateLogLikelihoodRatioForHyperParameters P m genome iteration
      = some [(∑ c ∈ Finset.range m.getNumSynthesisRateCategories,
            (-(Real.log (m.getStdDevSynthesisRate c false)
                - Real.log (m.getStdDevSynthesisRate c true))
              - (P.densityNorm (m.getStdDevSynthesisRate c false) 1.0 0.1 true
                - P.densityNorm (m.getStdDevSynthesisRate c true) 1.0 0.1 true)))
          + ∑ i ∈ Finset.range genome.getGenomeSize,
              (P.densityLogNorm
                  (m.getSynthesisRate i (m.getSynthesisRateCategory (m.getMixtureAssignment i))
                    false)
                  (-((m.getStdDevSynthesisRate
                        (m.getSynthesisRateCategory (m.getMixtureAssignment i)) true
                      * m.getStdDevSynthesisRate
                        (m.getSynthesisRateCategory (m.getMixtureAssignment i)) true) / 2))
                  (m.getStdDevSynthesisRate
                    (m.getSynthesisRateCategory (m.getMixtureAssignment i)) true) true
                - P.densityLogNorm
                  (m.getSynthesisRate i (m.getSynthesisRateCategory (m.getMixtureAssignment i))
                    false)
                  (-((m.getStdDevSynthesisRate
                        (m.getSynthesisRateCategory (m.getMixtureAssignment i)) false
                      * m.getStdDevSynthesisRate
                        (m.getSynthesisRateCategory (m.getMixtureAssignment i)) false) / 2))
                  (m.getStdDevSynthesisRate
                    (m.getSynthesisRateCategory (m.getMixtureAssignment i)) false) true)] := by
  have h := hyperGeneLoopUpTo_eq P m genome.getGenomeSize hwf
  rw [hyperCategoryLoopUpTo_lpr] at h
  unfold calculateLogLikelihoodRatioForHyperParameters
  unfold hyperGeneLoopUpTo hyperCategoryLoopUpTo at h
  simp only [h, Option.map_some']

/-- C7: when every gene has a synthesis-rate category below the number of
categories, the single slot returned by
calculateLogLikelihoodRatioForHyperParameters is the sum over every
synthesis-rate category c of -(log(sigma_cur c) - log(sigma_prop c))
- (densityNorm(sigma_cur c, 1.0, 0.1, log) - densityNorm(sigma_prop c, 1.0, 0.1, log))
plus the sum over every gene g of densityLogNorm(phi_g, -sigma_prop(c_g)^2/2,
sigma_prop(c_g), log) - densityLogNorm(phi_g, -sigma_cur(c_g)^2/2, sigma_cur(c_g), log),
where c_g is the synthesis-rate category of the mixture element of the gene and
phi_g the current synthesis rate read for gene g at c_g. -/
theorem C7_hyper_result (P : Parameter) (m : PAModel) (genome : Genome) (iteration : Nat)
    (hwf : ∀ i, i < genome.getGenomeSize →
      m.getSynthesisRateCategory (m.getMixtureAssignment i) < m.getNumSynthesisRateCategories) :
    calculateLogLikelihoodRatioForHyperParameters P m genome iteration
      = some [(∑ c ∈ Finset.range m.getNumSynthesisRateCategories,
            (-(Real.log (m.getStdDevSynthesisRate c false)
                - Real.log (m.getStdDevSynthesisRate c true))
              - (P.densityNorm (m.getStdDevSynthesisRate c false) 1.0 0.1 true
                - P.densityNorm (m.getStdDevSynthesisRate c true) 1.0 0.1 true)))
          + ∑ g ∈ Finset.range genome.getGenomeSize,
              (P.densityLogNorm
                  (m.getSynthesisRate g (m.getSynthesisRateCategory (m.getMixtureAssignment g))
                    false)
                  (-(m.getStdDevSynthesisRate
                      (m.getSynthesisRateCategory (m.getMixtureAssignment g)) true) ^ 2 / 2)
                  (m.getStdDevSynthesisRate
                    (m.getSynthesisRateCategory (m.getMixtureAssignment g)) true) true
                - P.densityLogNorm
                  (m.getSynthesisRate g (m.getSynthesisRateCategory (m.getMixtureAssignment g))
                    false)
                  (-(m.getStdDevSynthesisRate
                      (m.getSynthesisRateCategory (m.getMixtureAssignment g)) false) ^ 2 / 2)
                  (m.getStdDevSynthesisRate
                    (m.getSynthesisRateCategory (m.getMixtureAssignment g)) false) true)] := by
  have h : ∀ s : ℝ, -s ^ 2 / 2 = -((s * s) / 2) := fun s => by ring
  simp only [h]
  exact hyper_result_eq P m genome iteration hwf

/-- Witness of C7 on the concrete model and genome: both genes have category 0
and there is one category. -/
theorem C7_hyper_result_witness :
    (∀ i, i < sampleGenome.getGenomeSize →
        sampleModel.getSynthesisRateCategory (sampleModel.getMixtureAssignment i)
          < sampleModel.getNumSynthesisRateCategories)
      ∧ calculateLogLikelihoodRatioForHyperParameters sampleDensities sampleModel sampleGenome 0
        = some [(∑ c ∈ Finset.range sampleModel.getNumSynthesisRateCategories,
            (-(Real.log (sampleModel.getStdDevSynthesisRate c false)
                - Real.log (sampleModel.getStdDevSynthesisRate c true))
              - (sampleDensities.densityNorm (sampleModel.getStdDevSynthesisRate c false)
                  1.0 0.1 true
                - sampleDensities.densityNorm (sampleModel.getStdDevSynthesisRate c true)
                  1.0 0.1 true)))
          + ∑ g ∈ Finset.range sampleGenome.getGenomeSize,
              (sampleDensities.densityLogNorm
                  (sampleModel.getSynthesisRate g
                    (sampleModel.getSynthesisRateCategory (sampleModel.getMixtureAssignment g))
                    false)
                  (-(sampleModel.getStdDevSynthesisRate
                      (sampleModel.getSynthesisRateCategory
                        (sampleModel.getMixtureAssignment g)) true) ^ 2 / 2)
                  (sampleModel.getStdDevSynthesisRate
                    (sampleModel.getSynthesisRateCategory
                      (sampleModel.getMixtureAssignment g)) true) true
                - sampleDensities.densityLogNorm
                  (sampleModel.getSynthesisRate g
                    (sampleModel.getSynthesisRateCategory (sampleModel.getMixtureAssignment g))
                    false)
                  (-(sampleModel.getStdDevSynthesisRate
                      (sampleModel.getSynthesisRateCategory
                        (sampleModel.getMixtureAssignment g)) false) ^ 2 / 2)
                  (sampleModel.getStdDevSynthesisRate
                    (sampleModel.getSynthesisRateCategory
                      (sampleModel.getMixtureAssignment g)) false) true)] :=
  ⟨fun _ _ => Nat.zero_lt_one,
    C7_hyper_result sampleDensities sampleModel sampleGenome 0 (fun _ _ => Nat.zero_lt_one)⟩

/-- C8: if the proposed sigma equals the current sigma for every synthesis-rate
category, calculateLogLikelihoodRatioForHyperParameters returns exactly 0, for
every genome whose genes have a synthesis-rate category below the number of
categories, whatever the synthesis rates are. -/
theorem C8_hyper_same_sigma_zero (P : Parameter) (m : PAModel) (genome : Genome)
    (iteration : Nat)
    (hwf : ∀ i, i < genome.getGenomeSize →
      m.getSynthesisRateCategory (m.getMixtureAssignment i) < m.getNumSynthesisRateCategories)
    (hsame : ∀ c, c < m.getNumSynthesisRateCategories →
      m.getStdDevSynthesisRate c true = m.getStdDevSynthesisRate c false) :
    calculateLogLikelihoodRatioForHyperParameters P m genome iteration = some [0] := by
  rw [hyper_result_eq P m genome iteration hwf]
  have h1 : ∀ c ∈ Finset.range m.getNumSynthesisRateCategories,
      (-(Real.log (m.getStdDevSynthesisRate c false)
          - Real.log (m.getStdDevSynthesisRate c true))
        - (P.densityNorm (m.getStdDevSynthesisRate c false) 1.0 0.1 true
          - P.densityNorm (m.getStdDevSynthesisRate c true) 1.0 0.1 true)) = 0 := by
    intro c hc
    rw [hsame c (Finset.mem_range.mp hc)]
    ring
  rw [Finset.sum_eq_zero h1, zero_add, Finset.sum_eq_zero]
  intro i hi
  rw [hsame _ (hwf i (Finset.mem_range.mp hi))]
  ring

/-- Witness of C8 on the concrete model with equal sigmas and the concrete
genome of two genes. -/
theorem C8_hyper_same_sigma_zero_witness :
    (∀ i, i < sampleGenome.getGenomeSize →
        sampleModelSameSigma.getSynthesisRateCategory
            (sampleModelSameSigma.getMixtureAssignment i)
          < sampleModelSameSigma.getNumSynthesisRateCategories)
      ∧ (∀ c, c < sampleModelSameSigma.getNumSynthesisRateCategories →
        sampleModelSameSigma.getStdDevSynthesisRate c true
          = sampleModelSameSigma.getStdDevSynthesisRate c false)
      ∧ calculateLogLikelihoodRatioForHyperParameters sampleDensities sampleModelSameSigma
          sampleGenome 7 = some [0] :=
  ⟨fun _ _ => Nat.zero_lt_one, fun _ _ => rfl,
    C8_hyper_same_sigma_zero sampleDensities sampleModelSameSigma sampleGenome 7
      (fun _ _ => Nat.zero_lt_one) (fun _ _ => rfl)⟩

theorem map_skipIndex_range (j r : Nat) :
    (List.range (j + r)).map (skipIndex j)
      = List.range j ++ (List.range r).map (fun x => j + 1 + x) := by
  have h1 : (List.range j).map (skipIndex j) = List.range j := by
    have h : (List.range j).map (skipIndex j) = (List.range j).map id :=
      List.map_congr_left (fun i hi => by simp [skipIndex, List.mem_range.mp hi])
    rw [h, List.map_id]
  have h2 : (List.range r).map (skipIndex j ∘ fun x => j + x)
      = (List.range r).map (fun x => j + 1 + x) :=
    List.map_congr_left (fun i _ => by simp [skipIndex]; omega)
  rw [List.range_add, List.map_append, List.map_map, h1, h2]

theorem range_split_at (j r : Nat) :
    List.range (j + 1 + r)
      = List.range j ++ j :: (List.range r).map (fun x => j + 1 + x) := by
  rw [List.range_add, List.range_succ, List.append_assoc]
  rfl

theorem perGeneLoopBody_removeGroup (m : PAModel) (gene : Gene) (aC lC : Nat)
    (phi phiP : ℝ) (j : Nat) (acc : LoopState) (index : Nat) :
    perGeneLoopBody (removeGroup m j) (removeGroupOfGene gene j) aC lC phi phiP acc index
      = perGeneLoopBody m gene aC lC phi phiP acc (skipIndex j index) := rfl

theorem perGeneLoopBody_zero_count (m : PAModel) (gene : Gene) (aC lC : Nat)
    (phi phiP : ℝ) (acc : LoopState) (index : Nat)
    (h : gene.geneData.getCodonCountForCodon index = 0) :
    perGeneLoopBody m gene aC lC phi phiP acc index = acc := by
  simp [perGeneLoopBody, h]

theorem perGeneLoop_removeGroup (m : PAModel) (gene : Gene) (aC lC : Nat) (phi phiP : ℝ)
    (j : Nat) (hj : j < m.getGroupListSize)
    (hzero : gene.geneData.getCodonCountForCodon j = 0) :
    perGeneLoop (removeGroup m j) (removeGroupOfGene gene j) aC lC phi phiP
      = perGeneLoop m gene aC lC phi phiP := by
  obtain ⟨r, hr⟩ : ∃ r, m.getGroupListSize = j + 1 + r := ⟨m.getGroupListSize - (j + 1), by omega⟩
  have hsize : (removeGroup m j).getGroupListSize = j + r := by
    have : (removeGroup m j).getGroupListSize = m.getGroupListSize - 1 := rfl
    omega
  unfold perGeneLoop
  rw [hsize, hr, range_split_at, List.foldl_append, List.foldl_cons,
    perGeneLoopBody_zero_count m gene aC lC phi phiP _ j hzero, ← List.foldl_append,
    ← map_skipIndex_range, List.foldl_map]
  rfl

theorem perGeneLoopUpTo_calls_nonzero (m : PAModel) (gene : Gene) (aC lC : Nat)
    (phi phiP : ℝ) (n : Nat) :
    ∀ c ∈ (perGeneLoopUpTo m gene aC lC phi phiP n).calls, c.numCodons ≠ 0 := by
  induction n with
  | zero => simp [perGeneLoopUpTo, LoopState.start]
  | succ n ih =>
    rw [perGeneLoopUpTo_succ]
    by_cases h : gene.geneData.getCodonCountForCodon n = 0
    · rw [perGeneLoopBody_zero_count _ _ _ _ _ _ _ _ h]
      exact ih
    · intro c hc
      simp only [perGeneLoopBody, h, if_false, List.mem_append, List.mem_cons,
        List.mem_singleton, List.not_mem_nil, or_false] at hc
      rcases hc with hc | hc | hc
      · exact ih c hc
      · rw [hc]; exact h
      · rw [hc]; exact h

/-- C9: a codon group (position j of the group list) whose codon count in the
gene is zero changes none of the seven slots of the result of
calculateLogLikelihoodRatioPerGene: the result equals the result of the same
call with entry j absent from the group list and from the per-group data of the
gene, whatever alpha, lambdaPrime and footprint count belong to entry j. The
calls of calculateLogLikelihoodPerCodonPerGene made by the loop are the same
with and without entry j, and every call made has a nonzero codon count, so
no call is made for entry j. -/
theorem C9_perGene_zero_count_group (P : Parameter) (m : PAModel) (gene : Gene)
    (geneIndex k j : Nat) (hj : j < m.getGroupListSize)
    (hzero : gene.geneData.getCodonCountForCodon j = 0) :
    (calculateLogLikelihoodRatioPerGene P (removeGroup m j) (removeGroupOfGene gene j)
        geneIndex k).2
        = (calculateLogLikelihoodRatioPerGene P m gene geneIndex k).2
      ∧ (perGeneLoop (removeGroup m j) (removeGroupOfGene gene j)
            (m.getMutationCategory k) (m.getSelectionCategory k)
            (m.getSynthesisRate geneIndex (m.getSynthesisRateCategory k) false)
            (m.getSynthesisRate geneIndex (m.getSynthesisRateCategory k) true)).calls
        = (perGeneLoop m gene (m.getMutationCategory k) (m.getSelectionCategory k)
            (m.getSynthesisRate geneIndex (m.getSynthesisRateCategory k) false)
            (m.getSynthesisRate geneIndex (m.getSynthesisRateCategory k) true)).calls
      ∧ ∀ c ∈ (perGeneLoop m gene (m.getMutationCategory k) (m.getSelectionCategory k)
            (m.getSynthesisRate geneIndex (m.getSynthesisRateCategory k) false)
            (m.getSynthesisRate geneIndex (m.getSynthesisRateCategory k) true)).calls,
          c.numCodons ≠ 0 := by
  refine ⟨?_, ?_, ?_⟩
  · have h := perGeneLoop_removeGroup m gene (m.parameter.getMutationCategory k)
      (m.parameter.getSelectionCategory k)
      (m.parameter.getSynthesisRate geneIndex (m.parameter.getSynthesisRateCategory k) false)
      (m.parameter.getSynthesisRate geneIndex (m.parameter.getSynthesisRateCategory k) true)
      j hj hzero
    unfold calculateLogLikelihoodRatioPerGene
    simp only []
    have e1 : (removeGroup m j).parameter.getMutationCategory = m.parameter.getMutationCategory :=
      rfl
    have e2 : (removeGroup m j).parameter.getSelectionCategory
        = m.parameter.getSelectionCategory := rfl
    have e3 : (removeGroup m j).parameter.getSynthesisRateCategory
        = m.parameter.getSynthesisRateCategory := rfl
    have e4 : (removeGroup m j).parameter.getSynthesisRate = m.parameter.getSynthesisRate := rfl
    have e5 : (removeGroup m j).parameter.getStdDevSynthesisRate
        = m.parameter.getStdDevSynthesisRate := rfl
    rw [e1, e2, e3, e4, e5, h]
  · rw [perGeneLoop_removeGroup m gene _ _ _ _ j hj hzero]
  · rw [perGeneLoop_eq_upTo]
    exact perGeneLoopUpTo_calls_nonzero m gene _ _ _ _ _

/-- Witness of C9 on the concrete model and gene: codon group 1 has codon
count zero in the gene. -/
theorem C9_perGene_zero_count_group_witness :
    1 < sampleModel.getGroupListSize
      ∧ sampleGene.geneData.getCodonCountForCodon 1 = 0
      ∧ (calculateLogLikelihoodRatioPerGene sampleDensities (removeGroup sampleModel 1)
          (removeGroupOfGene sampleGene 1) 0 0).2
        = (calculateLogLikelihoodRatioPerGene sampleDensities sampleModel sampleGene 0 0).2 :=
  ⟨Nat.lt_succ_self 1, rfl,
    (C9_perGene_zero_count_group sampleDensities sampleModel sampleGene 0 0 1
      (Nat.lt_succ_self 1) rfl).1⟩

theorem lgamma_thirteen : lgamma 13 = Real.log 479001600 := by
  have h : Real.Gamma 13 = 479001600 := by
    have h12 := Real.Gamma_nat_eq_factorial 12
    have e : ((12 : ℕ) : ℝ) + 1 = 13 := by norm_num
    rw [e] at h12
    rw [h12]
    norm_num [Nat.factorial]
  rw [lgamma, h, abs_of_pos (by norm_num)]

theorem lgamma_eight : lgamma 8 = Real.log 5040 := by
  have h : Real.Gamma 8 = 5040 := by
    have h7 := Real.Gamma_nat_eq_factorial 7
    have e : ((7 : ℕ) : ℝ) + 1 = 8 := by norm_num
    rw [e] at h7
    rw [h7]
    norm_num [Nat.factorial]
  rw [lgamma, h, abs_of_pos (by norm_num)]

theorem codonLikelihood_example :
    calculateLogLikelihoodPerCodonPerGene 2 3 5 4 3
      = lgamma 13 - lgamma 8 + 13 * Real.log 0.5 := by
  have h36 : Real.log 3 - Real.log (3 + 3) = Real.log 0.5 := by
    rw [← Real.log_div (by norm_num) (by norm_num)]
    norm_num
  unfold calculateLogLikelihoodPerCodonPerGene
  simp only [h36]
  norm_num
  ring

theorem example_value_eq :
    lgamma 13 - lgamma 8 + 13 * Real.log 0.5
      = 4 * Real.log 2 + Real.log (1 - 563 / 2048) := by
  rw [lgamma_thirteen, lgamma_eight]
  have h1 : (479001600 : ℝ) = 5040 * (2 ^ 17 * (1 - 563 / 2048)) := by norm_num
  have h2 : (0.5 : ℝ) = 2⁻¹ := by norm_num
  rw [h1, h2, Real.log_mul (by norm_num) (by norm_num), Real.log_mul (by norm_num) (by norm_num),
    Real.log_pow, Real.log_inv]
  push_cast
  ring

theorem example_value_bounds :
    |4 * Real.log 2 + Real.log (1 - 563 / 2048) - 2.45114| ≤ 0.00005 := by
  have key := Real.abs_log_sub_add_sum_range_le (x := 563 / 2048)
    (by rw [abs_of_pos (by norm_num)]; norm_num) 8
  rw [abs_of_pos (by norm_num : (0 : ℝ) < 563 / 2048)] at key
  simp only [Finset.sum_range_succ, Finset.sum_range_zero] at key
  have h := Real.log_two_gt_d9
  have h' := Real.log_two_lt_d9
  rw [abs_le] at key ⊢
  obtain ⟨k1, k2⟩ := key
  norm_num at k1 k2
  constructor
  · linarith
  · linarith


/-- C10, as the specification states it, fails: at alpha = 2, lambdaPrime = 3,
r = 5, n = 4, phi = 3 the value returned by
calculateLogLikelihoodPerCodonPerGene is lgamma(13) - lgamma(8) + 13 * log(0.5),
but it is not within 0.0001 of the reference value -0.03445. -/
theorem C10_reference_value_refuted :
    ¬ (calculateLogLikelihoodPerCodonPerGene 2 3 5 4 3
          = lgamma 13 - lgamma 8 + 13 * Real.log 0.5
        ∧ |calculateLogLikelihoodPerCodonPerGene 2 3 5 4 3 - (-0.03445)| ≤ 0.0001) := by
  rintro ⟨-, h⟩
  have hb := example_value_bounds
  rw [codonLikelihood_example, example_value_eq] at h
  rw [abs_le] at h hb
  linarith [h.2, hb.1]

/-- C10, amended: at alpha = 2, lambdaPrime = 3, r = 5, n = 4, phi = 3 the value
returned by calculateLogLikelihoodPerCodonPerGene is
lgamma(13) - lgamma(8) + 13 * log(0.5), and this value lies within 0.0001 of
2.45114. -/
theorem C10_worked_example_value :
    calculateLogLikelihoodPerCodonPerGene 2 3 5 4 3
        = lgamma 13 - lgamma 8 + 13 * Real.log 0.5
      ∧ |calculateLogLikelihoodPerCodonPerGene 2 3 5 4 3 - 2.45114| ≤ 0.0001 := by
  refine ⟨codonLikelihood_example, ?_⟩
  have hb := example_value_bounds
  rw [codonLikelihood_example, example_value_eq]
  exact le_trans hb (by norm_num)

/-- C11: at alpha = 1, lambdaPrime = 1, phi = 1, r = 0, n = 1 the value returned
by calculateLogLikelihoodPerCodonPerGene is exactly -log 2, which is within
0.000001 of -0.693147. -/
theorem C11_degenerate_case :
    calculateLogLikelihoodPerCodonPerGene 1 1 0 1 1 = -Real.log 2
      ∧ |calculateLogLikelihoodPerCodonPerGene 1 1 0 1 1 - (-0.693147)| ≤ 0.000001 := by
  have h : calculateLogLikelihoodPerCodonPerGene 1 1 0 1 1 = -Real.log 2 := by
    unfold calculateLogLikelihoodPerCodonPerGene
    norm_num
  refine ⟨h, ?_⟩
  rw [h, abs_le]
  constructor
  · linarith [Real.log_two_lt_d9]
  · linarith [Real.log_two_gt_d9]

theorem gammaPoissonMass_eq (a b phi : ℝ) (r : Nat) (ha : 0 < a) (hb : 0 < b) (hphi : 0 < phi) :
    gammaPoissonMass a b phi r
      = Real.Gamma (a + r) / (Real.Gamma a * r.factorial)
        * (phi / (b + phi)) ^ r * (b / (b + phi)) ^ a := by
  have hbp : 0 < b + phi := add_pos hb hphi
  have har : 0 < a + r := add_pos_of_pos_of_nonneg ha (Nat.cast_nonneg r)
  have hG : 0 < Real.Gamma a := Real.Gamma_pos_of_pos ha
  have hfac : (0 : ℝ) < r.factorial := by exact_mod_cast Nat.factorial_pos r
  have hcongr : Set.EqOn (fun x => poissonMass (phi * x) r * gammaDensity a b x)
      (fun x => (phi ^ r * b ^ a / (r.factorial * Real.Gamma a))
        * (x ^ (a + r - 1) * Real.exp (-((b + phi) * x)))) (Set.Ioi 0) := by
    intro x hx
    have hx0 : 0 < x := hx
    have h1 : x ^ (a + r - 1) = x ^ (a - 1) * x ^ r := by
      rw [show a + (r : ℝ) - 1 = (a - 1) + (r : ℝ) by ring, Real.rpow_add hx0, Real.rpow_natCast]
    have h2 : Real.exp (-((b + phi) * x)) = Real.exp (-(phi * x)) * Real.exp (-(b * x)) := by
      rw [← Real.exp_add]; congr 1; ring
    simp only [poissonMass, gammaDensity, h1, h2, mul_pow]
    field_simp
    ring
  unfold gammaPoissonMass
  rw [MeasureTheory.setIntegral_congr_fun measurableSet_Ioi hcongr, MeasureTheory.integral_mul_left,
    Real.integral_rpow_mul_exp_neg_mul_Ioi har hbp]
  have h3 : (1 / (b + phi)) ^ (a + r) = (1 / (b + phi)) ^ a * (1 / (b + phi)) ^ r := by
    rw [Real.rpow_add (by positivity), Real.rpow_natCast]
  have h4 : (1 / (b + phi)) ^ a = 1 / (b + phi) ^ a := by
    rw [Real.div_rpow (by norm_num) hbp.le, Real.one_rpow]
  have h5 : (b / (b + phi)) ^ a = b ^ a / (b + phi) ^ a := Real.div_rpow hb.le hbp.le a
  have h6 : 0 < (b + phi) ^ a := Real.rpow_pos_of_pos hbp a
  rw [h3, h4, h5, div_pow, div_pow, one_pow]
  field_simp
  ring

theorem negativeBinomialMass_eq_mixture (alpha lambdaPrime phi : ℝ) (n r : Nat)
    (hAlpha : 0 < alpha) (hLambdaPrime : 0 < lambdaPrime) (hPhi : 0 < phi) (hn : 0 < n) :
    negativeBinomialMass alpha lambdaPrime r n phi
      = gammaPoissonMass ((n : ℝ) * alpha) lambdaPrime phi r := by
  have hna : 0 < (n : ℝ) * alpha := mul_pos (by exact_mod_cast hn) hAlpha
  rw [gammaPoissonMass_eq _ _ _ _ hna hLambdaPrime hPhi]
  rfl

theorem codonLikelihood_eq_log_mass_add (alpha lambdaPrime phi : ℝ) (n r : Nat)
    (hAlpha : 0 < alpha) (hLambdaPrime : 0 < lambdaPrime) (hPhi : 0 < phi) (hn : 0 < n) :
    calculateLogLikelihoodPerCodonPerGene alpha lambdaPrime r n phi
      = Real.log (negativeBinomialMass alpha lambdaPrime r n phi)
        + Real.log (r.factorial : ℝ) := by
  have hna : 0 < (n : ℝ) * alpha := mul_pos (by exact_mod_cast hn) hAlpha
  have hnar : 0 < (n : ℝ) * alpha + (r : ℝ) :=
    add_pos_of_pos_of_nonneg hna (Nat.cast_nonneg r)
  have hsum : 0 < lambdaPrime + phi := add_pos hLambdaPrime hPhi
  have hG1 : 0 < Real.Gamma ((n : ℝ) * alpha + (r : ℝ)) := Real.Gamma_pos_of_pos hnar
  have hG2 : 0 < Real.Gamma ((n : ℝ) * alpha) := Real.Gamma_pos_of_pos hna
  have hfac : (0 : ℝ) < r.factorial := by exact_mod_cast Nat.factorial_pos r
  have hq1 : 0 < phi / (lambdaPrime + phi) := div_pos hPhi hsum
  have hq2 : 0 < lambdaPrime / (lambdaPrime + phi) := div_pos hLambdaPrime hsum
  have hp1 : 0 < (phi / (lambdaPrime + phi)) ^ r := pow_pos hq1 r
  have hp2 : 0 < (lambdaPrime / (lambdaPrime + phi)) ^ ((n : ℝ) * alpha) :=
    Real.rpow_pos_of_pos hq2 _
  unfold calculateLogLikelihoodPerCodonPerGene negativeBinomialMass lgamma
  rw [abs_of_pos hG1, abs_of_pos hG2,
    Real.log_mul (mul_pos (div_pos hG1 (mul_pos hG2 hfac)) hp1).ne' hp2.ne',
    Real.log_mul (div_pos hG1 (mul_pos hG2 hfac)).ne' hp1.ne',
    Real.log_div hG1.ne' (mul_pos hG2 hfac).ne', Real.log_mul hG2.ne' hfac.ne',
    Real.log_pow, Real.log_rpow hq2, Real.log_div hPhi.ne' hsum.ne',
    Real.log_div hLambdaPrime.ne' hsum.ne']
  ring

/-- C12, as the specification states it, fails: at alpha = 1, lambdaPrime = 1,
phi = 1, n = 1, r = 2 the value returned by calculateLogLikelihoodPerCodonPerGene
is not the logarithm of Gamma(n*alpha + r) / (Gamma(n*alpha) * r!)
* (phi/(lambdaPrime+phi))^r * (lambdaPrime/(lambdaPrime+phi))^(n*alpha). -/
theorem C12_log_density_refuted :
    ¬ (calculateLogLikelihoodPerCodonPerGene 1 1 2 1 1
        = Real.log (negativeBinomialMass 1 1 2 1 1)) := by
  intro h
  have h2 := codonLikelihood_eq_log_mass_add 1 1 1 1 2 one_pos one_pos one_pos Nat.one_pos
  rw [h] at h2
  have h3 : Real.log ((Nat.factorial 2 : ℕ) : ℝ) = Real.log 2 := by
    norm_num [Nat.factorial]
  rw [h3] at h2
  linarith [Real.log_two_gt_d9]

/-- C12, amended: for alpha, lambdaPrime, phi greater than zero, n greater than
zero and any r, the value returned by calculateLogLikelihoodPerCodonPerGene is
the logarithm of the Gamma-Poisson (negative-binomial) probability of r plus
log(r!), where that probability is Gamma(n*alpha + r) / (Gamma(n*alpha) * r!)
* (phi/(lambdaPrime+phi))^r * (lambdaPrime/(lambdaPrime+phi))^(n*alpha) and equals
the probability of r when a latent rate is drawn from Gamma(shape n*alpha, rate
lambdaPrime) and the count from Poisson(phi * latent). -/
theorem C12_log_density_up_to_factorial (alpha lambdaPrime phi : ℝ) (n r : Nat)
    (hAlpha : 0 < alpha) (hLambdaPrime : 0 < lambdaPrime) (hPhi : 0 < phi) (hn : 0 < n) :
    calculateLogLikelihoodPerCodonPerGene alpha lambdaPrime r n phi
        = Real.log (negativeBinomialMass alpha lambdaPrime r n phi)
          + Real.log (r.factorial : ℝ)
      ∧ negativeBinomialMass alpha lambdaPrime r n phi
        = gammaPoissonMass ((n : ℝ) * alpha) lambdaPrime phi r :=
  ⟨codonLikelihood_eq_log_mass_add alpha lambdaPrime phi n r hAlpha hLambdaPrime hPhi hn,
    negativeBinomialMass_eq_mixture alpha lambdaPrime phi n r hAlpha hLambdaPrime hPhi hn⟩

/-- Witness of C12 (amended) at alpha = 2, lambdaPrime = 3, phi = 3, n = 4, r = 5. -/
theorem C12_log_density_up_to_factorial_witness :
    (0 : ℝ) < 2 ∧ (0 : ℝ) < 3 ∧ 0 < 4
      ∧ calculateLogLikelihoodPerCodonPerGene 2 3 5 4 3
        = Real.log (negativeBinomialMass 2 3 5 4 3) + Real.log (Nat.factorial 5 : ℝ)
      ∧ negativeBinomialMass 2 3 5 4 3 = gammaPoissonMass (((4 : Nat) : ℝ) * 2) 3 3 5 :=
  ⟨by norm_num, by norm_num, by decide,
    C12_log_density_up_to_factorial 2 3 3 4 5 (by norm_num) (by norm_num) (by norm_num)
      (by decide)⟩

theorem hyperGeneTerm_sample_one :
    hyperGeneTerm sampleDensities crossedModel 1 0 = -Real.log 2 - 3 / 8 := by
  simp [hyperGeneTerm, sampleDensities, crossedModel, crossedParameter, sampleParameter,
    getStdDevSynthesisRate]
  ring

theorem hyperGeneTerm_sample_three :
    hyperGeneTerm sampleDensities crossedModel 3 0
      = -Real.log 2 - 3 / 8 + 3 / 8 * Real.log 3 ^ 2 := by
  simp [hyperGeneTerm, sampleDensities, crossedModel, crossedParameter, sampleParameter,
    getStdDevSynthesisRate]
  ring

/-- C13, at the failing input: gene 0 is assigned mixture element 1, whose
synthesis-rate category is 0. calculateLogLikelihoodRatioForHyperParameters
evaluates the densities at the synthesis rate read with index 0 (the category),
which is 1, and not at the one read with index 1 (the mixture element), which is
3; the two give different results. -/
theorem C13_hyper_phi_read_at_category :
    crossedModel.getMixtureAssignment 0 = 1
      ∧ crossedModel.getSynthesisRateCategory 1 = 0
      ∧ crossedModel.getSynthesisRate 0 0 false = 1
      ∧ crossedModel.getSynthesisRate 0 1 false = 3
      ∧ calculateLogLikelihoodRatioForHyperParameters sampleDensities crossedModel
          oneGeneGenome 0
        = some [hyperCategorySum sampleDensities crossedModel
            + hyperGeneTerm sampleDensities crossedModel 1 0]
      ∧ calculateLogLikelihoodRatioForHyperParameters sampleDensities crossedModel
          oneGeneGenome 0
        ≠ some [hyperCategorySum sampleDensities crossedModel
            + hyperGeneTerm sampleDensities crossedModel 3 0] := by
  have hres : calculateLogLikelihoodRatioForHyperParameters sampleDensities crossedModel
      oneGeneGenome 0
        = some [hyperCategorySum sampleDensities crossedModel
            + hyperGeneTerm sampleDensities crossedModel 1 0] := by
    rw [hyper_result_eq sampleDensities crossedModel oneGeneGenome 0
      (fun i _ => by
        show (if crossedModel.getMixtureAssignment i = 0 then 1 else 0) < 2
        split <;> decide)]
    have hsize : oneGeneGenome.getGenomeSize = 1 := rfl
    rw [hsize, Finset.sum_range_one]
    rfl
  refine ⟨rfl, rfl, rfl, rfl, hres, ?_⟩
  rw [hres]
  intro h
  have h2 : hyperGeneTerm sampleDensities crossedModel 1 0
      = hyperGeneTerm sampleDensities crossedModel 3 0 := by
    have h3 := List.head_eq_of_cons_eq (Option.some.inj h)
    linarith
  rw [hyperGeneTerm_sample_one, hyperGeneTerm_sample_three] at h2
  have hlog : 0 < Real.log 3 := Real.log_pos (by norm_num)
  nlinarith [sq_nonneg (Real.log 3), mul_pos hlog hlog]

theorem codonLikelihood_negative_alpha :
    calculateLogLikelihoodPerCodonPerGene (-1 / 2) 1 0 1 1 = Real.log 2 / 2 := by
  unfold calculateLogLikelihoodPerCodonPerGene
  norm_num
  ring

/-- C14, as the specification states it, fails: with alpha = -1/2 (not
positive), lambdaPrime = 1, phi = 1, r = 0, n = 1,
calculateLogLikelihoodPerCodonPerGene returns the number log(2)/2 computed from
that alpha, and calculateLogLikelihoodRatioPerGene on a store holding that alpha
returns seven slots with log(2)/2 in slot 5; neither reports an error. -/
theorem C14_no_fail_fast :
    (-1 / 2 : ℝ) ≤ 0
      ∧ calculateLogLikelihoodPerCodonPerGene (-1 / 2) 1 0 1 1 = Real.log 2 / 2
      ∧ negativeAlphaModel.getParameterForCategory 0 negativeAlphaModel.parameter.alp
          (negativeAlphaModel.getGrouping 0) false = -1 / 2
      ∧ (calculateLogLikelihoodRatioPerGene sampleDensities negativeAlphaModel
          unobservedGene 0 0).2.length = 7
      ∧ slot (calculateLogLikelihoodRatioPerGene sampleDensities negativeAlphaModel
          unobservedGene 0 0).2 5 = Real.log 2 / 2 := by
  refine ⟨by norm_num, codonLikelihood_negative_alpha, rfl, rfl, ?_⟩
  rw [← codonLikelihood_negative_alpha]
  simp [calculateLogLikelihoodRatioPerGene, slot, perGeneLoop, perGeneLoopBody,
    negativeAlphaModel, negativeAlphaParameter, sampleModel, sampleParameter, unobservedGene,
    getGroupListSize, LoopState.start, getParameterForCategory, getGrouping, List.range_succ]

/-- C14, amended: the functions carry no check of the sign of alpha,
lambdaPrime, phi or sigma. For every value of these parameters, positive or
not, calculateLogLikelihoodPerCodonPerGene returns the value of its formula,
calculateLogLikelihoodRatioPerGene returns seven slots,
calculateLogLikelihoodRatioPerGroupingPerCategory returns five slots, and
calculateLogLikelihoodRatioForHyperParameters returns one slot whenever every
gene has a synthesis-rate category below the number of categories. -/
theorem C14_total_without_sign_check (P : Parameter) (S : SequenceSummary) (m : PAModel)
    (gene : Gene) (geneIndex k : Nat) (grouping : String) (genome : Genome) (iteration : Nat)
    (alpha lambdaPrime phi : ℝ) (r n : Nat)
    (hwf : ∀ i, i < genome.getGenomeSize →
      m.getSynthesisRateCategory (m.getMixtureAssignment i) < m.getNumSynthesisRateCategories) :
    calculateLogLikelihoodPerCodonPerGene alpha lambdaPrime r n phi
        = lgamma (n * alpha + r) - lgamma (n * alpha)
          + r * (Real.log phi - Real.log (lambdaPrime + phi))
          + n * alpha * (Real.log lambdaPrime - Real.log (lambdaPrime + phi))
      ∧ (calculateLogLikelihoodRatioPerGene P m gene geneIndex k).2.length = 7
      ∧ (calculateLogLikelihoodRatioPerGroupingPerCategory S m grouping genome).2.length = 5
      ∧ ∃ lpr, calculateLogLikelihoodRatioForHyperParameters P m genome iteration
          = some [lpr] :=
  ⟨rfl, rfl, rfl, _, hyper_result_eq P m genome iteration hwf⟩

/-- Witness of C14 (amended) on the concrete model with alpha = -1/2. -/
theorem C14_total_without_sign_check_witness :
    (∀ i, i < oneGeneGenome.getGenomeSize →
        negativeAlphaModel.getSynthesisRateCategory (negativeAlphaModel.getMixtureAssignment i)
          < negativeAlphaModel.getNumSynthesisRateCategories)
      ∧ (calculateLogLikelihoodRatioPerGene sampleDensities negativeAlphaModel unobservedGene
          0 0).2.length = 7
      ∧ ∃ lpr, calculateLogLikelihoodRatioForHyperParameters sampleDensities
          negativeAlphaModel oneGeneGenome 0 = some [lpr] :=
  ⟨fun _ _ => Nat.zero_lt_one,
    (C14_total_without_sign_check sampleDensities ⟨fun _ => 0, fun _ => ""⟩ negativeAlphaModel
      unobservedGene 0 0 "AAA" oneGeneGenome 0 (-1 / 2) 1 1 0 1
      (fun _ _ => Nat.zero_lt_one)).2.1,
    (C14_total_without_sign_check sampleDensities ⟨fun _ => 0, fun _ => ""⟩ negativeAlphaModel
      unobservedGene 0 0 "AAA" oneGeneGenome 0 (-1 / 2) 1 1 0 1
      (fun _ _ => Nat.zero_lt_one)).2.2.2⟩

theorem wrapInt32_of_inRange (z : Int) (h0 : 0 ≤ z) (h1 : z ≤ 2147483647) :
    wrapInt32 z = z := by
  unfold wrapInt32
  omega

theorem calculateYSum_foldl_inRange (genes : List Gene) (acc : Int) (h0 : 0 ≤ acc)
    (h1 : acc + ((genes.map (fun gene => gene.getTotalRFPCount)).sum : Nat) ≤ 2147483647) :
    genes.foldl (fun sum gene => wrapInt32 (sum + (gene.getTotalRFPCount : Int))) acc
      = acc + ((genes.map (fun gene => gene.getTotalRFPCount)).sum : Nat) := by
  induction genes generalizing acc with
  | nil => simp
  | cons g gs ih =>
    simp only [List.map_cons, List.sum_cons, Nat.cast_add] at h1
    have hw : wrapInt32 (acc + (g.getTotalRFPCount : Int)) = acc + (g.getTotalRFPCount : Int) :=
      wrapInt32_of_inRange _ (by omega) (by omega)
    simp only [List.foldl_cons, List.map_cons, List.sum_cons, Nat.cast_add, hw]
    rw [ih _ (by omega) (by omega)]
    ring

/-- The value of calculateY is the sum of the total footprint counts of the
genes whenever that sum does not exceed 2147483647. -/
theorem calculateY_eq_sum_of_inRange (m : PAModel) (genome : Genome)
    (h : (genome.genes.map (fun gene => gene.getTotalRFPCount)).sum ≤ 2147483647) :
    m.calculateY genome
      = (((genome.genes.map (fun gene => gene.getTotalRFPCount)).sum : Nat) : ℝ) := by
  unfold calculateY calculateYSum Genome.getGenes
  rw [calculateYSum_foldl_inRange genome.genes 0 (le_refl 0) (by omega), zero_add,
    Int.cast_natCast]

/-- C15, at the failing input: for the genome of two genes with 1073741824
footprints each, the sum of the total footprint counts is 2147483648, but
calculateY returns -2147483648. -/
theorem C15_calculateY_wraps :
    (largeCountGenome.genes.map (fun gene => gene.getTotalRFPCount)).sum = 2147483648
      ∧ sampleModel.calculateY largeCountGenome = -2147483648 := by
  refine ⟨by decide, ?_⟩
  have h : calculateYSum largeCountGenome = -2147483648 := by decide
  unfold calculateY
  rw [h]
  norm_num

/-- C17: a second call of a ratio function with the same arguments, on the model
left by the first call, returns the same result, for
calculateLogLikelihoodRatioPerGene and for
calculateLogLikelihoodRatioPerGroupingPerCategory; the result of the former does
not depend on the content of the handoff buffer, the result of the latter does
not depend on the stored ExpectedZ and Y, and the result of
calculateLogLikelihoodRatioForHyperParameters, which leaves the model as it is,
depends on none of the three. -/
theorem C17_ratio_functions_idempotent (P : Parameter) (S : SequenceSummary) (m : PAModel)
    (gene : Gene) (geneIndex k : Nat) (grouping : String) (genome : Genome) (iteration : Nat)
    (buffer : Nat → ℝ) (expectedZ y : ℝ) :
    (calculateLogLikelihoodRatioPerGene P
        (calculateLogLikelihoodRatioPerGene P m gene geneIndex k).1 gene geneIndex k).2
        = (calculateLogLikelihoodRatioPerGene P m gene geneIndex k).2
      ∧ (calculateLogLikelihoodRatioPerGene P { m with CSHyperParameters := buffer }
          gene geneIndex k).2
        = (calculateLogLikelihoodRatioPerGene P m gene geneIndex k).2
      ∧ (calculateLogLikelihoodRatioPerGroupingPerCategory S
          (calculateLogLikelihoodRatioPerGroupingPerCategory S m grouping genome).1
          grouping genome).2
        = (calculateLogLikelihoodRatioPerGroupingPerCategory S m grouping genome).2
      ∧ (calculateLogLikelihoodRatioPerGroupingPerCategory S
          { m with ExpectedZ := expectedZ, Y := y } grouping genome).2
        = (calculateLogLikelihoodRatioPerGroupingPerCategory S m grouping genome).2
      ∧ calculateLogLikelihoodRatioForHyperParameters P
          { m with CSHyperParameters := buffer, ExpectedZ := expectedZ, Y := y }
          genome iteration
        = calculateLogLikelihoodRatioForHyperParameters P m genome iteration :=
  ⟨rfl, rfl, rfl, rfl, rfl⟩

/-- C19: after a call of calculateLogLikelihoodRatioPerGene, slots 0 to 4 of the
handoff buffer equal slots 0 to 4 of the result, slots 5 and 6 of the buffer are
as before the call, and the parameter object and the other members of the model
are unchanged (the function has no access to the gene other than reading). A
later updateCodonSpecificHyperParameter passes the buffered values to the
parameter object in the order slot 0, slot 3, slot 4, slot 1, slot 2. -/
theorem C19_handoff_buffer (P : Parameter) (m : PAModel) (gene : Gene) (geneIndex k : Nat)
    (update : PAParameter → String → ℝ → ℝ → ℝ → ℝ → ℝ → ℝ → PAParameter)
    (aa : String) (randomNumber : ℝ) :
    (calculateLogLikelihoodRatioPerGene P m gene geneIndex k).1.CSHyperParameters 0
        = slot (calculateLogLikelihoodRatioPerGene P m gene geneIndex k).2 0
      ∧ (calculateLogLikelihoodRatioPerGene P m gene geneIndex k).1.CSHyperParameters 1
        = slot (calculateLogLikelihoodRatioPerGene P m gene geneIndex k).2 1
      ∧ (calculateLogLikelihoodRatioPerGene P m gene geneIndex k).1.CSHyperParameters 2
        = slot (calculateLogLikelihoodRatioPerGene P m gene geneIndex k).2 2
      ∧ (calculateLogLikelihoodRatioPerGene P m gene geneIndex k).1.CSHyperParameters 3
        = slot (calculateLogLikelihoodRatioPerGene P m gene geneIndex k).2 3
      ∧ (calculateLogLikelihoodRatioPerGene P m gene geneIndex k).1.CSHyperParameters 4
        = slot (calculateLogLikelihoodRatioPerGene P m gene geneIndex k).2 4
      ∧ (calculateLogLikelihoodRatioPerGene P m gene geneIndex k).1.CSHyperParameters 5
        = m.CSHyperParameters 5
      ∧ (calculateLogLikelihoodRatioPerGene P m gene geneIndex k).1.CSHyperParameters 6
        = m.CSHyperParameters 6
      ∧ (calculateLogLikelihoodRatioPerGene P m gene geneIndex k).1.parameter = m.parameter
      ∧ (calculateLogLikelihoodRatioPerGene P m gene geneIndex k).1.RFPCountColumn
        = m.RFPCountColumn
      ∧ (calculateLogLikelihoodRatioPerGene P m gene geneIndex k).1.ExpectedZ = m.ExpectedZ
      ∧ (calculateLogLikelihoodRatioPerGene P m gene geneIndex k).1.Y = m.Y
      ∧ (updateCodonSpecificHyperParameter update
          (calculateLogLikelihoodRatioPerGene P m gene geneIndex k).1 aa randomNumber).parameter
        = update m.parameter aa randomNumber
            (slot (calculateLogLikelihoodRatioPerGene P m gene geneIndex k).2 0)
            (slot (calculateLogLikelihoodRatioPerGene P m gene geneIndex k).2 3)
            (slot (calculateLogLikelihoodRatioPerGene P m gene geneIndex k).2 4)
            (slot (calculateLogLikelihoodRatioPerGene P m gene geneIndex k).2 1)
            (slot (calculateLogLikelihoodRatioPerGene P m gene geneIndex k).2 2) :=
  ⟨rfl, rfl, rfl, rfl, rfl, rfl, rfl, rfl, rfl, rfl, rfl, rfl⟩

/-- C20: if the proposed alpha and the proposed lambdaPrime of the codon group
equal the current ones in every category, and ExpectedZ equals Y with Y not
zero, then calculateLogLikelihoodRatioPerGroupingPerCategory returns slot 0 = 0
and slot 1 = slot 2. -/
theorem C20_perGrouping_unchanged_proposal (S : SequenceSummary) (m : PAModel)
    (grouping : String) (genome : Genome)
    (hAlpha : ∀ category, m.getParameterForCategory category m.parameter.alp grouping true
      = m.getParameterForCategory category m.parameter.alp grouping false)
    (hLambdaPrime : ∀ category,
      m.getParameterForCategory category m.parameter.lmPri grouping true
        = m.getParameterForCategory category m.parameter.lmPri grouping false)
    (hZ : m.calculateExpectedZ genome = m.calculateY genome)
    (hY : m.calculateY genome ≠ 0) :
    slot (calculateLogLikelihoodRatioPerGroupingPerCategory S m grouping genome).2 0 = 0
      ∧ slot (calculateLogLikelihoodRatioPerGroupingPerCategory S m grouping genome).2 1
        = slot (calculateLogLikelihoodRatioPerGroupingPerCategory S m grouping genome).2 2 := by
  have hscale : m.calculateExpectedZ genome / m.calculateY genome = 1 := by
    rw [hZ, div_self hY]
  have h12 : slot (calculateLogLikelihoodRatioPerGroupingPerCategory S m grouping genome).2 1
      = slot (calculateLogLikelihoodRatioPerGroupingPerCategory S m grouping genome).2 2 := by
    simp only [calculateLogLikelihoodRatioPerGroupingPerCategory, slot,
      perGroupingLoop_eq_upTo, perGroupingLoopUpTo_logLikelihood,
      perGroupingLoopUpTo_logLikelihood_proposed, List.getD_cons_succ, List.getD_cons_zero]
    apply Finset.sum_congr rfl
    intro i _
    have e1 := hAlpha (m.getMutationCategory (m.getMixtureAssignment i))
    have e2 := hLambdaPrime (m.getSelectionCategory (m.getMixtureAssignment i))
    have e3 : (m.calculateExpectedZ genome) / (calculateY
        { m with ExpectedZ := m.calculateExpectedZ genome } genome) = 1 := hscale
    simp only [getParameterForCategory, getMutationCategory, getSelectionCategory,
      getMixtureAssignment] at e1 e2 ⊢
    rw [e3, mul_one, e1, e2]
  refine ⟨?_, h12⟩
  have h0 : slot (calculateLogLikelihoodRatioPerGroupingPerCategory S m grouping genome).2 0
      = slot (calculateLogLikelihoodRatioPerGroupingPerCategory S m grouping genome).2 2
        - slot (calculateLogLikelihoodRatioPerGroupingPerCategory S m grouping genome).2 1 :=
    rfl
  rw [h0, h12, sub_self]

/-- Witness of C20 on the concrete model whose proposed codon parameters equal
the current ones and whose ExpectedZ is 10, with the concrete genome, whose Y
is 10. -/
theorem C20_perGrouping_unchanged_proposal_witness :
    unchangedCodonModel.calculateExpectedZ sampleGenome
        = unchangedCodonModel.calculateY sampleGenome
      ∧ unchangedCodonModel.calculateY sampleGenome ≠ 0
      ∧ slot (calculateLogLikelihoodRatioPerGroupingPerCategory sampleSequenceSummary
          unchangedCodonModel "AAA" sampleGenome).2 0 = 0
      ∧ slot (calculateLogLikelihoodRatioPerGroupingPerCategory sampleSequenceSummary
          unchangedCodonModel "AAA" sampleGenome).2 1
        = slot (calculateLogLikelihoodRatioPerGroupingPerCategory sampleSequenceSummary
          unchangedCodonModel "AAA" sampleGenome).2 2 := by
  have hY : unchangedCodonModel.calculateY sampleGenome = 10 := by
    have h : calculateYSum sampleGenome = 10 := by decide
    unfold calculateY
    rw [h]
    norm_num
  have hZ : unchangedCodonModel.calculateExpectedZ sampleGenome
      = unchangedCodonModel.calculateY sampleGenome := by
    rw [hY]
    rfl
  have hne : unchangedCodonModel.calculateY sampleGenome ≠ 0 := by
    rw [hY]
    norm_num
  exact ⟨hZ, hne, C20_perGrouping_unchanged_proposal sampleSequenceSummary unchangedCodonModel
    "AAA" sampleGenome (fun _ => rfl) (fun _ => rfl) hZ hne⟩

theorem inDomain_of_pos (alpha lambdaPrime phi : ℝ) (r n : Nat) (hAlpha : 0 < alpha)
    (hLambdaPrime : 0 < lambdaPrime) (hPhi : 0 < phi) (hn : n ≠ 0) :
    CodonCall.inDomain ⟨alpha, lambdaPrime, r, n, phi⟩ := by
  have hn0 : (0 : ℝ) < n := by exact_mod_cast Nat.pos_of_ne_zero hn
  have hna : 0 < (n : ℝ) * alpha := mul_pos hn0 hAlpha
  exact ⟨add_pos_of_pos_of_nonneg hna (Nat.cast_nonneg r), hna, hPhi,
    add_pos hLambdaPrime hPhi, hLambdaPrime⟩

theorem perGeneLoopUpTo_calls_inDomain (m : PAModel) (gene : Gene) (aC lC : Nat)
    (phi phiP : ℝ) (n : Nat)
    (hParam : ∀ category param codon proposed,
      0 < m.getParameterForCategory category param codon proposed)
    (hPhi : 0 < phi) (hPhiP : 0 < phiP) :
    ∀ c ∈ (perGeneLoopUpTo m gene aC lC phi phiP n).calls, c.inDomain := by
  induction n with
  | zero => simp [perGeneLoopUpTo, LoopState.start]
  | succ n ih =>
    rw [perGeneLoopUpTo_succ]
    by_cases h : gene.geneData.getCodonCountForCodon n = 0
    · rw [perGeneLoopBody_zero_count _ _ _ _ _ _ _ _ h]
      exact ih
    · intro c hc
      simp only [perGeneLoopBody, h, if_false, List.mem_append, List.mem_cons,
        List.mem_singleton, List.not_mem_nil, or_false] at hc
      rcases hc with hc | hc | hc
      · exact ih c hc
      · rw [hc]
        exact inDomain_of_pos _ _ _ _ _ (hParam _ _ _ _) (hParam _ _ _ _) hPhi h
      · rw [hc]
        exact inDomain_of_pos _ _ _ _ _ (hParam _ _ _ _) (hParam _ _ _ _) hPhiP h

theorem perGroupingLoopUpTo_calls_inDomain (m : PAModel) (grouping : String)
    (genome : Genome) (index n : Nat)
    (hParam : ∀ category param codon proposed,
      0 < m.getParameterForCategory category param codon proposed)
    (hPhi : ∀ i mixture proposed, 0 < m.getSynthesisRate i mixture proposed)
    (hScale : 0 < m.ExpectedZ / m.Y) :
    ∀ c ∈ (perGroupingLoopUpTo m grouping genome index n).calls, c.inDomain := by
  induction n with
  | zero => simp [perGroupingLoopUpTo, LoopState.start]
  | succ n ih =>
    rw [perGroupingLoopUpTo_succ]
    by_cases h : (genome.getGene n).geneData.getCodonCountForCodon index = 0
    · have hb : perGroupingLoopBody m grouping genome index
          (perGroupingLoopUpTo m grouping genome index n) n
          = perGroupingLoopUpTo m grouping genome index n := by
        simp [perGroupingLoopBody, h]
      rw [hb]
      exact ih
    · intro c hc
      simp only [perGroupingLoopBody, h, if_false, List.mem_append, List.mem_cons,
        List.mem_singleton, List.not_mem_nil, or_false] at hc
      rcases hc with hc | hc | hc
      · exact ih c hc
      · rw [hc]
        exact inDomain_of_pos _ _ _ _ _ (hParam _ _ _ _)
          (mul_pos (hParam _ _ _ _) hScale) (hPhi _ _ _) h
      · rw [hc]
        exact inDomain_of_pos _ _ _ _ _ (hParam _ _ _ _) (hParam _ _ _ _) (hPhi _ _ _) h

theorem sampleModel_parameter_pos :
    ∀ category param codon proposed,
      0 < sampleModel.getParameterForCategory category param codon proposed := by
  intro category param codon proposed
  simp only [getParameterForCategory, sampleModel, sampleParameter]
  split <;> split <;> norm_num

theorem sampleModel_phi_pos :
    ∀ i mixture proposed, 0 < sampleModel.getSynthesisRate i mixture proposed := by
  intro i mixture proposed
  simp only [getSynthesisRate, sampleModel, sampleParameter]
  split <;> norm_num

/-- C18, as the specification states it, fails: on the concrete model every
alpha, lambdaPrime and phi is greater than zero, but for the genome of one gene
without footprints (codon count 1 for the codon group) the member Y assigned by
calculateLogLikelihoodRatioPerGroupingPerCategory is 0, and the function makes a
call of calculateLogLikelihoodPerCodonPerGene for that gene whose lambdaPrime
argument is the current lambdaPrime times ExpectedZ / Y: the evaluation involves
a division by zero. -/
theorem C18_grouping_divides_by_zero :
    (∀ category param codon proposed,
        0 < sampleModel.getParameterForCategory category param codon proposed)
      ∧ (∀ i mixture proposed, 0 < sampleModel.getSynthesisRate i mixture proposed)
      ∧ (calculateLogLikelihoodRatioPerGroupingPerCategory sampleSequenceSummary sampleModel
          "AAA" unobservedGenome).1.Y = 0
      ∧ ∃ c ∈ (perGroupingLoop
            (calculateLogLikelihoodRatioPerGroupingPerCategory sampleSequenceSummary sampleModel
              "AAA" unobservedGenome).1
            "AAA" unobservedGenome (sampleSequenceSummary.codonToIndex "AAA")).calls,
          c.numCodons = (unobservedGenome.getGene 0).geneData.getCodonCountForCodon 0
            ∧ c.lambdaPrime
              = sampleModel.getParameterForCategory
                  (sampleModel.getSelectionCategory (sampleModel.getMixtureAssignment 0))
                  sampleModel.parameter.lmPri "AAA" false
                * ((calculateLogLikelihoodRatioPerGroupingPerCategory sampleSequenceSummary
                      sampleModel "AAA" unobservedGenome).1.ExpectedZ
                    / (calculateLogLikelihoodRatioPerGroupingPerCategory sampleSequenceSummary
                      sampleModel "AAA" unobservedGenome).1.Y) := by
  have hY : calculateYSum unobservedGenome = 0 := by decide
  refine ⟨sampleModel_parameter_pos, sampleModel_phi_pos, ?_, ?_⟩
  · simp [calculateLogLikelihoodRatioPerGroupingPerCategory, calculateY, hY]
  · have hloop : perGroupingLoop
          (calculateLogLikelihoodRatioPerGroupingPerCategory sampleSequenceSummary sampleModel
            "AAA" unobservedGenome).1
          "AAA" unobservedGenome (sampleSequenceSummary.codonToIndex "AAA")
        = perGroupingLoopBody
            (calculateLogLikelihoodRatioPerGroupingPerCategory sampleSequenceSummary sampleModel
              "AAA" unobservedGenome).1
            "AAA" unobservedGenome 0 LoopState.start 0 := rfl
    rw [hloop]
    refine ⟨_, List.mem_cons_self _ _, rfl, rfl⟩

/-- C18, amended: when every alpha, lambdaPrime and phi read from the store is
greater than zero, every call of calculateLogLikelihoodPerCodonPerGene made by
calculateLogLikelihoodRatioPerGene passes arguments greater than zero to log and
lgamma. The calls made by calculateLogLikelihoodRatioPerGroupingPerCategory do
so, and the divisor Y of the scale ExpectedZ / Y is not zero, when in addition Y
is not zero and ExpectedZ / Y is greater than zero. -/
theorem C18_calls_in_domain (S : SequenceSummary) (m : PAModel) (gene : Gene)
    (geneIndex k : Nat) (grouping : String) (genome : Genome)
    (hParam : ∀ category param codon proposed,
      0 < m.getParameterForCategory category param codon proposed)
    (hPhi : ∀ i mixture proposed, 0 < m.getSynthesisRate i mixture proposed) :
    (∀ c ∈ (perGeneLoop m gene (m.getMutationCategory k) (m.getSelectionCategory k)
          (m.getSynthesisRate geneIndex (m.getSynthesisRateCategory k) false)
          (m.getSynthesisRate geneIndex (m.getSynthesisRateCategory k) true)).calls,
        c.inDomain)
      ∧ (m.calculateY genome ≠ 0 →
        0 < m.calculateExpectedZ genome / m.calculateY genome →
        (calculateLogLikelihoodRatioPerGroupingPerCategory S m grouping genome).1.Y ≠ 0
          ∧ ∀ c ∈ (perGroupingLoop
                (calculateLogLikelihoodRatioPerGroupingPerCategory S m grouping genome).1
                grouping genome (S.codonToIndex grouping)).calls,
            c.inDomain) := by
  constructor
  · rw [perGeneLoop_eq_upTo]
    exact perGeneLoopUpTo_calls_inDomain m gene _ _ _ _ _ hParam (hPhi _ _ _) (hPhi _ _ _)
  · intro hY hScale
    refine ⟨hY, ?_⟩
    rw [perGroupingLoop_eq_upTo]
    exact perGroupingLoopUpTo_calls_inDomain _ grouping genome _ _ hParam hPhi hScale

/-- Witness of C18 (amended) on the concrete model and genome: every parameter
is greater than zero, ExpectedZ is 5 and Y is 10. -/
theorem C18_calls_in_domain_witness :
    sampleModel.calculateY sampleGenome ≠ 0
      ∧ 0 < sampleModel.calculateExpectedZ sampleGenome / sampleModel.calculateY sampleGenome
      ∧ (∀ c ∈ (perGeneLoop sampleModel sampleGene (sampleModel.getMutationCategory 0)
            (sampleModel.getSelectionCategory 0)
            (sampleModel.getSynthesisRate 0 (sampleModel.getSynthesisRateCategory 0) false)
            (sampleModel.getSynthesisRate 0 (sampleModel.getSynthesisRateCategory 0) true)).calls,
          c.inDomain)
      ∧ (calculateLogLikelihoodRatioPerGroupingPerCategory sampleSequenceSummary sampleModel
          "AAA" sampleGenome).1.Y ≠ 0
      ∧ ∀ c ∈ (perGroupingLoop
            (calculateLogLikelihoodRatioPerGroupingPerCategory sampleSequenceSummary sampleModel
              "AAA" sampleGenome).1
            "AAA" sampleGenome (sampleSequenceSummary.codonToIndex "AAA")).calls,
          c.inDomain := by
  have hY : sampleModel.calculateY sampleGenome = 10 := by
    have h : calculateYSum sampleGenome = 10 := by decide
    unfold calculateY
    rw [h]
    norm_num
  have hZ : sampleModel.calculateExpectedZ sampleGenome = 5 := rfl
  have hne : sampleModel.calculateY sampleGenome ≠ 0 := by
    rw [hY]
    norm_num
  have hScale : 0 < sampleModel.calculateExpectedZ sampleGenome
      / sampleModel.calculateY sampleGenome := by
    rw [hY, hZ]
    norm_num
  exact ⟨hne, hScale,
    (C18_calls_in_domain sampleSequenceSummary sampleModel sampleGene 0 0 "AAA" sampleGenome
      sampleModel_parameter_pos sampleModel_phi_pos).1,
    ((C18_calls_in_domain sampleSequenceSummary sampleModel sampleGene 0 0 "AAA" sampleGenome
      sampleModel_parameter_pos sampleModel_phi_pos).2 hne hScale).1,
    ((C18_calls_in_domain sampleSequenceSummary sampleModel sampleGene 0 0 "AAA" sampleGenome
      sampleModel_parameter_pos sampleModel_phi_pos).2 hne hScale).2⟩

theorem codonLikelihood_phi_part_le (r a lam phi : ℝ) (hr : 0 < r) (ha : 0 < a) (hlam : 0 < lam)
    (hphi : 0 < phi) :
    r * (Real.log phi - Real.log (lam + phi)) + a * (Real.log lam - Real.log (lam + phi))
      ≤ r * (Real.log (r * lam / a) - Real.log (lam + r * lam / a))
        + a * (Real.log lam - Real.log (lam + r * lam / a)) := by
  have hstar : 0 < r * lam / a := div_pos (mul_pos hr hlam) ha
  have hsum : 0 < lam + phi := add_pos hlam hphi
  have hsumStar : 0 < lam + r * lam / a := add_pos hlam hstar
  have h1 := Real.log_le_sub_one_of_pos
    (div_pos (div_pos hphi hstar) (div_pos hsum hsumStar))
  have h2 := Real.log_le_sub_one_of_pos (div_pos hsumStar hsum)
  rw [Real.log_div (div_pos hphi hstar).ne' (div_pos hsum hsumStar).ne',
    Real.log_div hphi.ne' hstar.ne', Real.log_div hsum.ne' hsumStar.ne'] at h1
  rw [Real.log_div hsumStar.ne' hsum.ne'] at h2
  have hzero : r * (phi / (r * lam / a) / ((lam + phi) / (lam + r * lam / a)) - 1)
      + a * ((lam + r * lam / a) / (lam + phi) - 1) = 0 := by
    field_simp
    ring
  have h3 := add_le_add (mul_le_mul_of_nonneg_left h1 hr.le) (mul_le_mul_of_nonneg_left h2 ha.le)
  rw [hzero] at h3
  linarith

/-- C21: for alpha, lambdaPrime greater than zero and n, r greater than zero,
calculateLogLikelihoodPerCodonPerGene as a function of phi greater than zero is
largest at phi* = r * lambdaPrime / (n * alpha): phi* is greater than zero, the
model mean n * alpha * phi* / lambdaPrime equals r, and for every phi greater
than zero the value at phi is at most the value at phi*. -/
theorem C21_codonLikelihood_max_in_phi (alpha lambdaPrime phi : ℝ) (n r : Nat)
    (hAlpha : 0 < alpha) (hLambdaPrime : 0 < lambdaPrime) (hn : 0 < n) (hr : 0 < r)
    (hPhi : 0 < phi) :
    0 < (r : ℝ) * lambdaPrime / ((n : ℝ) * alpha)
      ∧ (n : ℝ) * alpha * ((r : ℝ) * lambdaPrime / ((n : ℝ) * alpha)) / lambdaPrime = (r : ℝ)
      ∧ calculateLogLikelihoodPerCodonPerGene alpha lambdaPrime r n phi
        ≤ calculateLogLikelihoodPerCodonPerGene alpha lambdaPrime r n
            ((r : ℝ) * lambdaPrime / ((n : ℝ) * alpha)) := by
  have hr0 : (0 : ℝ) < r := by exact_mod_cast hr
  have hn0 : (0 : ℝ) < n := by exact_mod_cast hn
  have hna : 0 < (n : ℝ) * alpha := mul_pos hn0 hAlpha
  refine ⟨div_pos (mul_pos hr0 hLambdaPrime) hna, ?_, ?_⟩
  · field_simp
  · have h := codonLikelihood_phi_part_le (r : ℝ) ((n : ℝ) * alpha) lambdaPrime phi hr0 hna
      hLambdaPrime hPhi
    unfold calculateLogLikelihoodPerCodonPerGene
    linarith

/-- Witness of C21 at alpha = 2, lambdaPrime = 3, n = 4, r = 5, phi = 3. -/
theorem C21_codonLikelihood_max_in_phi_witness :
    (0 : ℝ) < 2 ∧ (0 : ℝ) < 3 ∧ 0 < 4 ∧ 0 < 5
      ∧ calculateLogLikelihoodPerCodonPerGene 2 3 5 4 3
        ≤ calculateLogLikelihoodPerCodonPerGene 2 3 5 4
            (((5 : Nat) : ℝ) * 3 / (((4 : Nat) : ℝ) * 2)) :=
  ⟨by norm_num, by norm_num, by decide, by decide,
    (C21_codonLikelihood_max_in_phi 2 3 3 4 5 (by norm_num) (by norm_num) (by decide)
      (by decide) (by norm_num)).2.2⟩

end PAModel

end AnaCoDa
